import Mathlib

/-! RTC8564 driver: register codec and bus sequencing.

A shallow embedding of `src/RTC8564.h` and `src/RTC8564.cpp`.

* `uint8_t` values are natural numbers below 256; every store into a `uint8_t`
  object is written with an explicit `% 256`.
* `int` intermediate values (the arguments and results of `toBCD` / `fromBCD`) are
  natural numbers: every call site passes a `uint8_t` promoted to `int`, and the only
  subtraction (`year - 100`) is guarded by `year > 100`.
* A `uint8_t *` buffer is a `List Nat`; `data[i] = v` is `data.set i v` and reading
  `data[i]` is `data.getD i 0`.
* The Arduino `Wire` object is not part of the repository; it is a parameter
  (`Wire σ`) and the driver threads the bus state and a log of bus events.
* `RTC8564Class::initialize` is spelled `initialise` here, the source spelling being a
  reserved word of Lean. `RTC8564Class::begin` (`Wire.begin()` followed by `initialize`)
  adds no register traffic of its own and is not modelled.
-/

namespace RTC8564

/-! ## Constants of `RTC8564.h` -/

def RTC8564_I2C_ADDRESS : Nat := 0x51

def RTC8564_CONTROL1 : Nat := 0x00
def RTC8564_CONTROL2 : Nat := 0x01
def RTC8564_SECONDS : Nat := 0x02
def RTC8564_MINUTES : Nat := 0x03
def RTC8564_HOURS : Nat := 0x04
def RTC8564_DAYS : Nat := 0x05
def RTC8564_WEEKDAYS : Nat := 0x06
def RTC8564_MONTH_CENTURY : Nat := 0x07
def RTC8564_YEARS : Nat := 0x08
def RTC8564_MINUTE_ALARM : Nat := 0x09
def RTC8564_HOUR_ALARM : Nat := 0x0a
def RTC8564_DAY_ALARM : Nat := 0x0b
def RTC8564_WEEKDAY_ALARM : Nat := 0x0c
def RTC8564_CLKOUT_FREQUENCY : Nat := 0x0d
def RTC8564_TIMER_CONTROL : Nat := 0x0e
def RTC8564_TIMER : Nat := 0x0f

def RTC8564_STOP_BIT : Nat := 0x20

def RTC8564_TIE_BIT : Nat := 0x01
def RTC8564_AIE_BIT : Nat := 0x02
def RTC8564_TF_BIT : Nat := 0x04
def RTC8564_AF_BIT : Nat := 0x08
def RTC8564_TITP_BIT : Nat := 0x10

def RTC8564_CAL_VL : Nat := 0x80
def RTC8564_CAL_CENTURY : Nat := 0x80

def RTC8564_AE_NONE : Nat := 0x00
def RTC8564_AE_MINUTE : Nat := 0x01
def RTC8564_AE_HOUR : Nat := 0x02
def RTC8564_AE_DAY : Nat := 0x04
def RTC8564_AE_WEEKDAY : Nat := 0x08
def RTC8564_AE_ALL : Nat :=
  RTC8564_AE_MINUTE ||| RTC8564_AE_HOUR ||| RTC8564_AE_DAY ||| RTC8564_AE_WEEKDAY
def RTC8564_AE_BIT : Nat := 0x80

def RTC8564_CLK_244US : Nat := 0x00
def RTC8564_CLK_15MS : Nat := 0x01
def RTC8564_CLK_1SEC : Nat := 0x02
def RTC8564_CLK_1MIN : Nat := 0x03
def RTC8564_TE_BIT : Nat := 0x80

def RTC8564_CLKOUT_32768HZ : Nat := 0x00
def RTC8564_CLKOUT_1024HZ : Nat := 0x01
def RTC8564_CLKOUT_32HZ : Nat := 0x02
def RTC8564_CLKOUT_1HZ : Nat := 0x03
def RTC8564_FE_BIT : Nat := 0x80

/-! ## utils -/

/-- The C expression `x & ~m` stored into a `uint8_t`, for `uint8_t` operands: `~m` is
the `int` complement, of which only the low eight bits meet `x`. -/
def andNot8 (x m : Nat) : Nat := x &&& (0xff ^^^ m)

/-- Source: `toBCD`, `(((decimal / 10) << 4) | (decimal % 10))`. -/
def toBCD (decimal : Nat) : Nat :=
  ((decimal / 10) <<< 4) ||| (decimal % 10)

/-- Source: `fromBCD`, `((bcd >> 4) * 10 + (bcd & 0x0f))`. -/
def fromBCD (bcd : Nat) : Nat :=
  (bcd >>> 4) * 10 + (bcd &&& 0x0f)

/-! ## DateTime -/

/-- Source: `struct DateTime`; every field is a `uint8_t`. -/
structure DateTime where
  second : Nat
  minute : Nat
  hour : Nat
  day : Nat
  month : Nat
  year : Nat
  weekday : Nat
deriving DecidableEq, Repr

/-- Source: `struct AlarmTime`; every field is a `uint8_t`. -/
structure AlarmTime where
  minute : Nat
  hour : Nat
  day : Nat
  weekday : Nat
deriving DecidableEq, Repr

/-- Source: `DateTime::encode`. The buffer `data` is updated cell by cell; each store
truncates the `int` result of `toBCD` to a `uint8_t`. -/
def DateTime.encode (t : DateTime) (data : List Nat) : List Nat :=
  let data := data.set 0 (toBCD t.second % 256)
  let data := data.set 1 (toBCD t.minute % 256)
  let data := data.set 2 (toBCD t.hour % 256)
  let data := data.set 3 (toBCD t.day % 256)
  let data := data.set 4 (toBCD t.weekday % 256)
  let data := data.set 5 (toBCD t.month % 256)
  if t.year > 100 then
    let data := data.set 6 (toBCD (t.year - 100) % 256)
    data.set 5 ((data.getD 5 0 ||| RTC8564_CAL_CENTURY) % 256)
  else
    data.set 6 (toBCD t.year % 256)

/-- Source: `DateTime::decode`. Returns the `int` result together with the object after
the call (`t` itself when the call returns early). -/
def DateTime.decode (t : DateTime) (data : List Nat) : Int × DateTime :=
  if data.getD 0 0 &&& RTC8564_CAL_VL ≠ 0 then
    (-1, t)
  else
    let t := { t with second := fromBCD (data.getD 0 0 &&& 0x7f) % 256 }
    let t := { t with minute := fromBCD (data.getD 1 0 &&& 0x7f) % 256 }
    let t := { t with hour := fromBCD (data.getD 2 0 &&& 0x3f) % 256 }
    let t := { t with day := fromBCD (data.getD 3 0 &&& 0x3f) % 256 }
    let t := { t with weekday := fromBCD (data.getD 4 0 &&& 0x07) % 256 }
    let t := { t with month := fromBCD (data.getD 5 0 &&& 0x1f) % 256 }
    let t := { t with year := fromBCD (data.getD 6 0) % 256 }
    let t :=
      if data.getD 5 0 &&& RTC8564_CAL_CENTURY ≠ 0 then
        { t with year := (t.year + 100) % 256 }
      else t
    (0, t)

/-! ## The bus -/

/-- One step of the driver that is visible outside it, in program order: a burst write
(`setRegisters`), a burst read (`getRegisters`) or a pause (`delay`). -/
inductive Event where
  | write (address : Nat) (data : List Nat)
  | read (address : Nat) (length : Nat)
  | delay (ms : Nat)
deriving DecidableEq, Repr

/-- The two-wire transport (Arduino `Wire`, an external collaborator), always addressed
at `RTC8564_I2C_ADDRESS`. `write` is the transaction `beginTransmission; write(address);
write(data, length); endTransmission`; `read` is `beginTransmission; write(address);
endTransmission; requestFrom(length)` followed by the bytes the device delivers. -/
structure Wire (σ : Type) where
  write : σ → Nat → List Nat → σ
  read : σ → Nat → Nat → List Nat × σ

/-- The driver's view of the world: the state of the bus and the events issued so far. -/
structure Device (σ : Type) where
  bus : σ
  log : List Event

/-- The burst writes among a list of events, as (start address, bytes) pairs. -/
def writes : List Event → List (Nat × List Nat)
  | [] => []
  | Event.write a data :: es => (a, data) :: writes es
  | _ :: es => writes es

/-- The burst reads among a list of events, as (start address, length) pairs. -/
def reads : List Event → List (Nat × Nat)
  | [] => []
  | Event.read a n :: es => (a, n) :: reads es
  | _ :: es => reads es

/-- Source: Arduino `delay(ms)`; only recorded. -/
def delay {σ : Type} (ms : Nat) (d : Device σ) : Device σ :=
  { d with log := d.log ++ [Event.delay ms] }

/-- Source: `RTC8564Class::setRegisters`; sends the first `length` bytes of `data`. -/
def setRegisters {σ : Type} (W : Wire σ) (address length : Nat) (data : List Nat)
    (d : Device σ) : Device σ :=
  { bus := W.write d.bus address (data.take length)
    log := d.log ++ [Event.write address (data.take length)] }

/-- Source: `RTC8564Class::getRegisters`; returns the `length` bytes stored into the
caller's buffer (`data[i] = Wire.read()`, a store into a `uint8_t`). The device is taken
to deliver every requested byte, so that the busy-wait loop ends; a byte the transport
does not supply reads as 0. In every call of the source the buffer has exactly `length`
cells. -/
def getRegisters {σ : Type} (W : Wire σ) (address length : Nat) (d : Device σ) :
    List Nat × Device σ :=
  let r := W.read d.bus address length
  ((List.range length).map (fun i => r.1.getD i 0 % 256),
    { bus := r.2, log := d.log ++ [Event.read address length] })

/-! ## RTC8564Class -/

/-- Source: `RTC8564Class::setDateTime`. The local `uint8_t data[7]` starts as seven
cells; every cell is stored before it is sent. -/
def setDateTime {σ : Type} (W : Wire σ) (dt : DateTime) (d : Device σ) : Device σ :=
  let data := List.replicate 7 0
  let data := data.set 0 RTC8564_STOP_BIT
  let d := setRegisters W RTC8564_CONTROL1 1 data d
  let data := dt.encode data
  let d := setRegisters W RTC8564_SECONDS 7 data d
  let data := data.set 0 0x00
  setRegisters W RTC8564_CONTROL1 1 data d

/-- Source: `RTC8564Class::getDateTime`; returns `decode`'s result and the `DateTime`
after the call. -/
def getDateTime {σ : Type} (W : Wire σ) (dt : DateTime) (d : Device σ) :
    (Int × DateTime) × Device σ :=
  let (data, d) := getRegisters W RTC8564_SECONDS 7 d
  (dt.decode data, d)

/-- Source: `RTC8564Class::setAlarm`. -/
def setAlarm {σ : Type} (W : Wire σ) (enableFlags : Nat) (at_ : AlarmTime)
    (interruptEnable : Nat) (d : Device σ) : Device σ :=
  let (r, d) := getRegisters W RTC8564_CONTROL2 1 d
  let control2 := r.getD 0 0
  let control2 := andNot8 control2 RTC8564_AIE_BIT
  let d := setRegisters W RTC8564_CONTROL2 1 [control2] d
  let data := List.replicate 4 0
  let data := data.set 0
    (if enableFlags &&& RTC8564_AE_MINUTE ≠ 0 then toBCD at_.minute % 256 else RTC8564_AE_BIT)
  let data := data.set 1
    (if enableFlags &&& RTC8564_AE_HOUR ≠ 0 then toBCD at_.hour % 256 else RTC8564_AE_BIT)
  let data := data.set 2
    (if enableFlags &&& RTC8564_AE_DAY ≠ 0 then toBCD at_.day % 256 else RTC8564_AE_BIT)
  let data := data.set 3
    (if enableFlags &&& RTC8564_AE_WEEKDAY ≠ 0 then toBCD at_.weekday % 256
     else RTC8564_AE_BIT)
  let d := setRegisters W RTC8564_MINUTE_ALARM 4 data d
  let control2 :=
    if interruptEnable ≠ 0 then (control2 ||| RTC8564_AIE_BIT) % 256
    else andNot8 control2 RTC8564_AIE_BIT
  setRegisters W RTC8564_CONTROL2 1 [control2] d

/-- Source: `RTC8564Class::getAlarm`; both out-parameters are overwritten in full, so
the result is the pair (`*enableFlags`, `*at`) after the call. -/
def getAlarm {σ : Type} (W : Wire σ) (d : Device σ) : (Nat × AlarmTime) × Device σ :=
  let (data, d) := getRegisters W RTC8564_MINUTE_ALARM 4 d
  let at_ : AlarmTime :=
    { minute := fromBCD (data.getD 0 0 &&& 0x7f) % 256
      hour := fromBCD (data.getD 1 0 &&& 0x3f) % 256
      day := fromBCD (data.getD 2 0 &&& 0x3f) % 256
      weekday := fromBCD (data.getD 3 0 &&& 0x07) % 256 }
  let enableFlags := 0
  let enableFlags := (List.range 4).foldl
    (fun ef i => if data.getD i 0 &&& RTC8564_AE_BIT = 0 then (ef ||| (1 <<< i)) % 256 else ef)
    enableFlags
  ((enableFlags, at_), d)

/-- Source: `RTC8564Class::getAlarmFlag`. -/
def getAlarmFlag {σ : Type} (W : Wire σ) (d : Device σ) : Int × Device σ :=
  let (r, d) := getRegisters W RTC8564_CONTROL2 1 d
  let control2 := r.getD 0 0
  (if control2 &&& RTC8564_AF_BIT ≠ 0 then 1 else 0, d)

/-- Source: `RTC8564Class::clearAlarmFlag`. -/
def clearAlarmFlag {σ : Type} (W : Wire σ) (d : Device σ) : Device σ :=
  let (r, d) := getRegisters W RTC8564_CONTROL2 1 d
  let control2 := r.getD 0 0
  let control2 := andNot8 control2 RTC8564_AF_BIT
  setRegisters W RTC8564_CONTROL2 1 [control2] d

/-- Source: `RTC8564Class::setTimer`. -/
def setTimer {σ : Type} (W : Wire σ)
    (enableFlag repeatMode clockMode counter interruptEnable : Nat) (d : Device σ) :
    Device σ :=
  let data := List.replicate 4 0
  let data := data.set 0 0
  let d := setRegisters W RTC8564_TIMER_CONTROL 1 data d
  if enableFlag ≠ 0 then
    let (r, d) := getRegisters W RTC8564_CONTROL2 1 d
    let control2 := r.getD 0 0
    let control2 :=
      andNot8 control2 (RTC8564_TITP_BIT ||| RTC8564_TF_BIT ||| RTC8564_TIE_BIT)
    let d := setRegisters W RTC8564_CONTROL2 1 [control2] d
    let control2 :=
      if repeatMode ≠ 0 then (control2 ||| RTC8564_TITP_BIT) % 256 else control2
    let control2 :=
      if interruptEnable ≠ 0 then (control2 ||| RTC8564_TIE_BIT) % 256 else control2
    let d := setRegisters W RTC8564_CONTROL2 1 [control2] d
    let d := setRegisters W RTC8564_TIMER 1 [counter] d
    let clockMode := (clockMode ||| RTC8564_TE_BIT) % 256
    setRegisters W RTC8564_TIMER_CONTROL 1 [clockMode] d
  else
    d

/-- Source: `RTC8564Class::getTimerFlag`. -/
def getTimerFlag {σ : Type} (W : Wire σ) (d : Device σ) : Int × Device σ :=
  let (r, d) := getRegisters W RTC8564_CONTROL2 1 d
  let control2 := r.getD 0 0
  (if control2 &&& RTC8564_TF_BIT ≠ 0 then 1 else 0, d)

/-- Source: `RTC8564Class::clearTimerFlag`. -/
def clearTimerFlag {σ : Type} (W : Wire σ) (d : Device σ) : Device σ :=
  let (r, d) := getRegisters W RTC8564_CONTROL2 1 d
  let control2 := r.getD 0 0
  let control2 := andNot8 control2 RTC8564_TF_BIT
  setRegisters W RTC8564_CONTROL2 1 [control2] d

/-- Source: `RTC8564Class::setClkoutFrequency`. -/
def setClkoutFrequency {σ : Type} (W : Wire σ) (enableFlag frequency : Nat)
    (d : Device σ) : Device σ :=
  let frequency :=
    if enableFlag ≠ 0 then (frequency ||| RTC8564_FE_BIT) % 256
    else andNot8 frequency RTC8564_FE_BIT
  setRegisters W RTC8564_CLKOUT_FREQUENCY 1 [frequency] d

/-- Source: `RTC8564Class::initialize` (`false` is passed as the `uint8_t` 0). -/
def initialise {σ : Type} (W : Wire σ) (dt : DateTime) (d : Device σ) : Device σ :=
  let at_ : AlarmTime := { minute := 0, hour := 0, day := 0, weekday := 0 }
  let (vl, d) := getRegisters W RTC8564_SECONDS 1 d
  if vl.getD 0 0 &&& RTC8564_CAL_VL ≠ 0 then
    let d := delay 1000 d
    let control := [RTC8564_STOP_BIT, 0x00]
    let d := setRegisters W RTC8564_CONTROL1 2 control d
    let d := setDateTime W dt d
    let d := setAlarm W RTC8564_AE_NONE at_ 0 d
    let d := setClkoutFrequency W 0 RTC8564_CLKOUT_32768HZ d
    setTimer W 0 0 RTC8564_CLK_244US 0 0 d
  else
    d

/-! ## A register-file bus -/

/-- A bus whose device is a plain register file: a burst write stores its bytes at
consecutive addresses, and a burst read returns the bytes stored there, so that a read
returns the last value written. -/
def regBus : Wire (Nat → Nat) where
  write regs address data :=
    fun r => if address ≤ r ∧ r < address + data.length then data.getD (r - address) 0
      else regs r
  read regs address length := ((List.range length).map (fun i => regs (address + i)), regs)

/-! ## Traces -/

/-- The events issued between the device state `d` and a later state `d'`. -/
def issued {σ : Type} (d d' : Device σ) : List Event :=
  d'.log.drop d.log.length

/-- Whether a burst write of `data` starting at `address` stores into one of the calendar
registers SECONDS (0x02) .. YEARS (0x08). -/
def touchesCalendar (address : Nat) (data : List Nat) : Bool :=
  decide (0 < data.length ∧ address ≤ RTC8564_YEARS ∧ RTC8564_SECONDS < address + data.length)

/-- The byte that a burst write of `data` starting at `address` stores into CONTROL1, if
it stores one: register addresses only grow within a burst. -/
def control1Byte (address : Nat) (data : List Nat) : Option Nat :=
  if address = RTC8564_CONTROL1 then data.head? else none

/-- Scans a trace in order, `last` being the byte most recently written to CONTROL1 (none
before the first such write): true when every write that touches a calendar register
finds the stop bit set in that byte. -/
def stopGuarded : Option Nat → List Event → Bool
  | _, [] => true
  | last, Event.write address data :: es =>
    let last := (control1Byte address data).orElse (fun _ => last)
    (if touchesCalendar address data then
        match last with
        | some v => decide (v &&& RTC8564_STOP_BIT ≠ 0)
        | none => false
      else true) && stopGuarded last es
  | last, _ :: es => stopGuarded last es

/-- The writes of a trace that touch a calendar register. -/
def calendarWrites (es : List Event) : List (Nat × List Nat) :=
  (writes es).filter (fun w => touchesCalendar w.1 w.2)

/-! ## Codec lemmas -/

/-- Every seven-cell buffer has the shape `[a, b, c, d, e, f, g]`. -/
theorem length_seven {data : List Nat} (h : data.length = 7) :
    ∃ a b c d e f g, data = [a, b, c, d, e, f, g] := by
  match data, h with
  | [a, b, c, d, e, f, g], _ => exact ⟨a, b, c, d, e, f, g, rfl⟩

/-- The seven bytes `DateTime::encode` leaves in a seven-cell buffer, whatever the buffer
held before. -/
theorem encode_eq (t : DateTime) (data : List Nat) (h : data.length = 7) :
    t.encode data =
      [toBCD t.second % 256, toBCD t.minute % 256, toBCD t.hour % 256, toBCD t.day % 256,
        toBCD t.weekday % 256,
        if t.year > 100 then (toBCD t.month % 256 ||| 0x80) % 256 else toBCD t.month % 256,
        if t.year > 100 then toBCD (t.year - 100) % 256 else toBCD t.year % 256] := by
  obtain ⟨a, b, c, d, e, f, g, rfl⟩ := length_seven h
  unfold DateTime.encode
  by_cases hy : t.year > 100
  · simp [hy, List.set, List.getD, RTC8564_CAL_CENTURY]
  · simp [hy, List.set]

/-- Seconds and minutes (0..59): the stored byte has bit 0x80 clear and decodes back under
the 7-bit mask. -/
theorem bcd7_roundtrip : ∀ x < 60,
    toBCD x % 256 &&& 0x80 = 0 ∧ fromBCD (toBCD x % 256 &&& 0x7f) % 256 = x := by
  decide

/-- Hours and days (0..31): the stored byte has bit 0x80 clear and decodes back under the
6-bit mask. -/
theorem bcd6_roundtrip : ∀ x < 32,
    toBCD x % 256 &&& 0x80 = 0 ∧ fromBCD (toBCD x % 256 &&& 0x3f) % 256 = x := by
  decide

/-- Weekdays (0..6): the stored byte has bit 0x80 clear and decodes back under the 3-bit
mask. -/
theorem bcd3_roundtrip : ∀ x < 7,
    toBCD x % 256 &&& 0x80 = 0 ∧ fromBCD (toBCD x % 256 &&& 0x07) % 256 = x := by
  decide

/-- Months (0..12), without and with the century bit in the same byte. -/
theorem month_roundtrip : ∀ x < 13,
    toBCD x % 256 &&& 0x80 = 0 ∧ fromBCD (toBCD x % 256 &&& 0x1f) % 256 = x ∧
    (toBCD x % 256 ||| 0x80) % 256 &&& 0x80 = 0x80 ∧
    fromBCD ((toBCD x % 256 ||| 0x80) % 256 &&& 0x1f) % 256 = x := by
  decide

/-- Years 0..100 stored without the century bit; 100 is stored as the byte 0xa0. -/
theorem year_roundtrip_low : ∀ x < 101, fromBCD (toBCD x % 256) % 256 = x := by
  decide

/-- Years 101..199 stored as `year - 100` with the century bit. -/
theorem year_roundtrip_high : ∀ x < 100,
    (fromBCD (toBCD x % 256) % 256 + 100) % 256 = x + 100 := by
  decide

/-! ## Claims on the codec -/

/-- C1: for every DateTime `t` within the chip's ranges (second, minute 0..59, hour 0..23,
day 1..31, month 1..12, year 0..199, weekday 0..6), `decode` applied to the seven bytes
that `encode` leaves in a seven-cell buffer returns 0 and yields `t` in all seven fields,
whatever the decoding object `d0` and the buffer held before. -/
theorem decode_encode_roundtrip (t d0 : DateTime) (data : List Nat)
    (hlen : data.length = 7)
    (hs : t.second ≤ 59) (hm : t.minute ≤ 59) (hh : t.hour ≤ 23)
    (hd : 1 ≤ t.day ∧ t.day ≤ 31) (hmo : 1 ≤ t.month ∧ t.month ≤ 12)
    (hy : t.year ≤ 199) (hw : t.weekday ≤ 6) :
    d0.decode (t.encode data) = (0, t) := by
  obtain ⟨s1, s2⟩ := bcd7_roundtrip t.second (by omega)
  obtain ⟨_, m2⟩ := bcd7_roundtrip t.minute (by omega)
  obtain ⟨_, h2⟩ := bcd6_roundtrip t.hour (by omega)
  obtain ⟨_, d2⟩ := bcd6_roundtrip t.day (by omega)
  obtain ⟨_, w2⟩ := bcd3_roundtrip t.weekday (by omega)
  obtain ⟨mo1, mo2, mo3, mo4⟩ := month_roundtrip t.month (by omega)
  rw [encode_eq t data hlen]
  cases t with
  | mk second minute hour day month year weekday =>
  simp only at *
  by_cases hc : year > 100
  · have y2 := year_roundtrip_high (year - 100) (by omega)
    have hsub : year - 100 + 100 = year := by omega
    rw [hsub] at y2
    simp [DateTime.decode, List.getD, hc, RTC8564_CAL_VL, RTC8564_CAL_CENTURY,
      s1, s2, m2, h2, d2, w2, mo3, mo4, y2]
  · have y2 := year_roundtrip_low year (by omega)
    simp [DateTime.decode, List.getD, hc, RTC8564_CAL_VL, RTC8564_CAL_CENTURY,
      s1, s2, m2, h2, d2, w2, mo1, mo2, y2]

/-- C1 at the boundary year 100: 23:59:58 on day 31 of month 12, weekday 6. -/
theorem decode_encode_roundtrip_witness :
    (DateTime.mk 0 0 0 0 0 0 0).decode
        ((DateTime.mk 58 59 23 31 12 100 6).encode [0, 0, 0, 0, 0, 0, 0]) =
      (0, DateTime.mk 58 59 23 31 12 100 6) :=
  decode_encode_roundtrip (DateTime.mk 58 59 23 31 12 100 6) (DateTime.mk 0 0 0 0 0 0 0)
    [0, 0, 0, 0, 0, 0, 0] (by decide) (by decide) (by decide) (by decide) (by decide)
    (by decide) (by decide) (by decide)

/-- C2, the code at year = 100 (month 1): `encode` takes the `else` branch of
`year > 100`, so byte 5 is the bare month 0x01 with bit 0x80 clear and byte 6 is
`toBCD(100)` = 0xa0, where the claim asks for bit 0x80 set and the byte
`toBCD(100 mod 100)` = 0x00. One year later the century bit is set and byte 6 is 0x01. -/
theorem encode_year_100 :
    (DateTime.mk 0 0 0 1 1 100 0).encode [0, 0, 0, 0, 0, 0, 0] = [0, 0, 0, 1, 0, 0x01, 0xa0] ∧
    ((DateTime.mk 0 0 0 1 1 100 0).encode [0, 0, 0, 0, 0, 0, 0]).getD 5 0
      &&& RTC8564_CAL_CENTURY = 0 ∧
    ((DateTime.mk 0 0 0 1 1 100 0).encode [0, 0, 0, 0, 0, 0, 0]).getD 6 0
      ≠ toBCD (100 % 100) ∧
    (DateTime.mk 0 0 0 1 1 101 0).encode [0, 0, 0, 0, 0, 0, 0] = [0, 0, 0, 1, 0, 0x81, 0x01] := by
  decide

/-- C3: for every register image, `decode` returns -1 exactly when bit 0x80 of byte 0 is
set, and 0 otherwise; bytes 1..6 and the decoding object play no part. -/
theorem decode_result (t : DateTime) (data : List Nat) :
    ((t.decode data).1 = -1 ↔ data.getD 0 0 &&& 0x80 ≠ 0) ∧
    ((t.decode data).1 = 0 ↔ data.getD 0 0 &&& 0x80 = 0) ∧
    (t.decode data).1 = (if data.getD 0 0 &&& 0x80 ≠ 0 then -1 else 0) := by
  by_cases h : data.getD 0 0 &&& RTC8564_CAL_VL ≠ 0
  · have hr : (t.decode data).1 = -1 := by
      unfold DateTime.decode
      rw [if_pos h]
    have h80 : data.getD 0 0 &&& 0x80 ≠ 0 := h
    rw [hr, if_pos h80]
    exact ⟨⟨fun _ => h80, fun _ => rfl⟩, ⟨fun h0 => absurd h0 (by decide), fun h0 => absurd h0 h80⟩,
      rfl⟩
  · have hr : (t.decode data).1 = 0 := by
      unfold DateTime.decode
      rw [if_neg h]
    have h80 : ¬ (data.getD 0 0 &&& 0x80 ≠ 0) := h
    rw [hr, if_neg h80]
    exact ⟨⟨fun h0 => absurd h0 (by decide), fun h0 => absurd h0 h80⟩,
      ⟨fun _ => not_not.mp h80, fun _ => rfl⟩, rfl⟩

/-! ## Bus lemmas -/

/-- A one-byte read yields exactly one `uint8_t`. -/
theorem getRegisters_one {σ : Type} (W : Wire σ) (address : Nat) (d : Device σ) :
    (getRegisters W address 1 d).1 = [(W.read d.bus address 1).1.getD 0 0 % 256] ∧
    (getRegisters W address 1 d).1.getD 0 0 < 256 := by
  have h : (getRegisters W address 1 d).1 = [(W.read d.bus address 1).1.getD 0 0 % 256] := rfl
  refine ⟨h, ?_⟩
  rw [h]
  exact Nat.mod_lt _ (by decide)

/-- A read on the register-file bus returns the stored bytes and leaves the registers. -/
theorem getRegisters_regBus (address length : Nat) (d : Device (Nat → Nat)) :
    getRegisters regBus address length d =
      ((List.range length).map (fun i => d.bus (address + i) % 256),
        { bus := d.bus, log := d.log ++ [Event.read address length] }) := by
  simp only [getRegisters, regBus]
  congr 1
  apply List.ext_getElem
  · simp
  · intro i h1 h2
    simp at h1
    simp [List.getD, h1]

/-- The four alarm registers that `setAlarm` leaves on the register-file bus. -/
theorem setAlarm_regBus_image (enableFlags : Nat) (at_ : AlarmTime) (ie : Nat)
    (d : Device (Nat → Nat)) :
    (getRegisters regBus RTC8564_MINUTE_ALARM 4 (setAlarm regBus enableFlags at_ ie d)).1 =
      [if enableFlags &&& RTC8564_AE_MINUTE ≠ 0 then toBCD at_.minute % 256 else 0x80,
        if enableFlags &&& RTC8564_AE_HOUR ≠ 0 then toBCD at_.hour % 256 else 0x80,
        if enableFlags &&& RTC8564_AE_DAY ≠ 0 then toBCD at_.day % 256 else 0x80,
        if enableFlags &&& RTC8564_AE_WEEKDAY ≠ 0 then toBCD at_.weekday % 256 else 0x80] := by
  rw [getRegisters_regBus]
  simp [setAlarm, setRegisters, regBus, getRegisters, List.range, List.range.loop,
    RTC8564_MINUTE_ALARM, RTC8564_CONTROL2, RTC8564_AE_MINUTE, RTC8564_AE_HOUR,
    RTC8564_AE_DAY, RTC8564_AE_WEEKDAY, RTC8564_AE_BIT, List.set, List.getD]
  refine ⟨?_, ?_, ?_, ?_⟩ <;> split <;> omega

/-- What `getAlarm` computes from the four bytes it reads. -/
theorem getAlarm_eq {σ : Type} (W : Wire σ) (d : Device σ) (b0 b1 b2 b3 : Nat)
    (h : (getRegisters W RTC8564_MINUTE_ALARM 4 d).1 = [b0, b1, b2, b3]) :
    (getAlarm W d).1 =
      ((if b0 &&& 0x80 = 0 then 1 else 0) + (if b1 &&& 0x80 = 0 then 2 else 0) +
          (if b2 &&& 0x80 = 0 then 4 else 0) + (if b3 &&& 0x80 = 0 then 8 else 0),
        { minute := fromBCD (b0 &&& 0x7f) % 256
          hour := fromBCD (b1 &&& 0x3f) % 256
          day := fromBCD (b2 &&& 0x3f) % 256
          weekday := fromBCD (b3 &&& 0x07) % 256 }) := by
  unfold getAlarm
  simp only [h]
  simp only [List.range, List.range.loop, List.foldl, List.getD_cons_zero, List.getD_cons_succ,
    RTC8564_AE_BIT]
  by_cases h0 : b0 &&& 0x80 = 0 <;> by_cases h1 : b1 &&& 0x80 = 0 <;>
    by_cases h2 : b2 &&& 0x80 = 0 <;> by_cases h3 : b3 &&& 0x80 = 0 <;>
    simp only [h0, h1, h2, h3, if_true, if_false] <;> rfl

/-- A four-bit mask is the sum of its bits. -/
theorem mask_bits : ∀ mask < 16,
    (if mask &&& 1 ≠ 0 then 1 else 0) + (if mask &&& 2 ≠ 0 then 2 else 0) +
      (if mask &&& 4 ≠ 0 then 4 else 0) + (if mask &&& 8 ≠ 0 then 8 else 0) = mask := by
  decide

/-- One alarm byte read back: it is armed exactly when it was stored armed, and decodes
(under `maskBits`) to the stored value or, for the bare 0x80, to 0. -/
theorem alarm_byte (c : Prop) [Decidable c] (x m v k : Nat)
    (h1 : x &&& 0x80 = 0) (h2 : fromBCD (x &&& m) % 256 = v)
    (h3 : fromBCD (0x80 &&& m) % 256 = 0) :
    (if (if c then x else 0x80) &&& 0x80 = 0 then k else 0) = (if c then k else 0) ∧
    fromBCD ((if c then x else 0x80) &&& m) % 256 = (if c then v else 0) := by
  by_cases hc : c
  · simp only [hc, if_true, h1, h2, and_self]
  · simp only [hc, if_false, h3, and_true]
    rfl

/-- Bits of `x & ~m` for `uint8_t` operands: bit `i` survives exactly when it is clear in
`m`. -/
theorem andNot8_testBit (c m i : Nat) (hc : c < 256) :
    (andNot8 c m).testBit i = (c.testBit i && !m.testBit i) := by
  unfold andNot8
  rw [Nat.testBit_land, Nat.testBit_xor]
  by_cases hi : i < 8
  · have h255 : Nat.testBit 0xff i = true := by
      interval_cases i <;> rfl
    rw [h255]
    cases m.testBit i <;> rfl
  · have hlt : c < 2 ^ i :=
      lt_of_lt_of_le hc (Nat.pow_le_pow_right (show 2 > 0 by decide) (show 8 ≤ i by omega))
    rw [Nat.testBit_lt_two_pow hlt]
    rfl

set_option maxRecDepth 20000 in
/-- Setting a bit that was just cleared, and clearing it twice, on a `uint8_t`. -/
theorem andNot8_aie : ∀ c < 256,
    (andNot8 c 0x02 ||| 0x02) % 256 = c ||| 0x02 ∧ andNot8 (andNot8 c 0x02) 0x02 = andNot8 c 0x02 := by
  decide

/-- BCD bytes of values up to 99 fit a `uint8_t`. -/
theorem toBCD_lt : ∀ x < 100, toBCD x % 256 = toBCD x := by
  decide

/-- The events of `setDateTime`. -/
theorem setDateTime_log {σ : Type} (W : Wire σ) (dt : DateTime) (d : Device σ) :
    (setDateTime W dt d).log =
      d.log ++ [Event.write 0x00 [0x20], Event.write 0x02 (dt.encode (List.replicate 7 0)),
        Event.write 0x00 [0x00]] := by
  have e1 := encode_eq dt ((List.replicate 7 0).set 0 RTC8564_STOP_BIT) (by decide)
  have e2 := encode_eq dt (List.replicate 7 0) (by decide)
  simp only [setDateTime, setRegisters]
  rw [e1, e2]
  simp [RTC8564_CONTROL1, RTC8564_SECONDS, RTC8564_STOP_BIT, List.set]

/-- The events of `setAlarm`, in terms of the CONTROL2 byte `c` it reads. -/
theorem setAlarm_log {σ : Type} (W : Wire σ) (enableFlags : Nat) (at_ : AlarmTime)
    (ie : Nat) (d : Device σ) :
    (setAlarm W enableFlags at_ ie d).log =
      d.log ++ [Event.read 0x01 1,
        Event.write 0x01 [andNot8 ((getRegisters W RTC8564_CONTROL2 1 d).1.getD 0 0) 0x02],
        Event.write 0x09
          [if enableFlags &&& 0x01 ≠ 0 then toBCD at_.minute % 256 else 0x80,
            if enableFlags &&& 0x02 ≠ 0 then toBCD at_.hour % 256 else 0x80,
            if enableFlags &&& 0x04 ≠ 0 then toBCD at_.day % 256 else 0x80,
            if enableFlags &&& 0x08 ≠ 0 then toBCD at_.weekday % 256 else 0x80],
        Event.write 0x01
          [if ie ≠ 0 then (getRegisters W RTC8564_CONTROL2 1 d).1.getD 0 0 ||| 0x02
            else andNot8 ((getRegisters W RTC8564_CONTROL2 1 d).1.getD 0 0) 0x02]] := by
  obtain ⟨_, hc⟩ := getRegisters_one W RTC8564_CONTROL2 d
  obtain ⟨a1, a2⟩ := andNot8_aie _ hc
  simp only [setAlarm, setRegisters, RTC8564_AIE_BIT, a1, a2]
  simp only [getRegisters, List.append_assoc, List.singleton_append, List.cons_append,
    List.nil_append, List.replicate, List.set, List.take, RTC8564_CONTROL2,
    RTC8564_MINUTE_ALARM, RTC8564_AE_MINUTE, RTC8564_AE_HOUR, RTC8564_AE_DAY,
    RTC8564_AE_WEEKDAY, RTC8564_AE_BIT]

/-- The events of `setClkoutFrequency`. -/
theorem setClkoutFrequency_log {σ : Type} (W : Wire σ) (enableFlag frequency : Nat)
    (d : Device σ) :
    (setClkoutFrequency W enableFlag frequency d).log =
      d.log ++ [Event.write 0x0d
        [if enableFlag ≠ 0 then (frequency ||| 0x80) % 256 else andNot8 frequency 0x80]] := by
  rfl

/-- The events and the bus state of `setTimer` with `enableFlag` = 0. -/
theorem setTimer_off {σ : Type} (W : Wire σ) (repeatMode clockMode counter ie : Nat)
    (d : Device σ) :
    setTimer W 0 repeatMode clockMode counter ie d =
      { bus := W.write d.bus 0x0e [0x00], log := d.log ++ [Event.write 0x0e [0x00]] } := by
  rfl

/-- With the voltage-low bit clear, `initialise` is its one read. -/
theorem initialise_of_vl_clear {σ : Type} (W : Wire σ) (dt : DateTime) (d : Device σ)
    (hvl : (getRegisters W RTC8564_SECONDS 1 d).1.getD 0 0 &&& 0x80 = 0) :
    initialise W dt d = (getRegisters W RTC8564_SECONDS 1 d).2 := by
  have hvl2 : ¬ ((getRegisters W RTC8564_SECONDS 1 d).1.getD 0 0 &&& RTC8564_CAL_VL ≠ 0) :=
    fun h => h hvl
  unfold initialise
  simp only []
  rw [if_neg hvl2]

/-- A read appended to a log adds no write. -/
theorem writes_append_read (l : List Event) (address length : Nat) :
    writes (l ++ [Event.read address length]) = writes l := by
  induction l with
  | nil => rfl
  | cons e es ih => cases e <;> simp [writes, ih]

/-- The bus transaction of `setRegisters`. -/
theorem setRegisters_bus {σ : Type} (W : Wire σ) (address length : Nat) (data : List Nat)
    (d : Device σ) :
    (setRegisters W address length data d).bus = W.write d.bus address (data.take length) := by
  rfl

/-- The bus transactions of `setDateTime`. -/
theorem setDateTime_bus {σ : Type} (W : Wire σ) (dt : DateTime) (d : Device σ) :
    (setDateTime W dt d).bus =
      W.write (W.write (W.write d.bus 0x00 [0x20]) 0x02 (dt.encode (List.replicate 7 0)))
        0x00 [0x00] := by
  have e1 := encode_eq dt ((List.replicate 7 0).set 0 RTC8564_STOP_BIT) (by decide)
  have e2 := encode_eq dt (List.replicate 7 0) (by decide)
  simp only [setDateTime, setRegisters]
  rw [e1, e2]
  simp [RTC8564_CONTROL1, RTC8564_SECONDS, RTC8564_STOP_BIT, List.set]

/-- The bus transactions of `setAlarm`, in terms of the CONTROL2 byte it reads. -/
theorem setAlarm_bus {σ : Type} (W : Wire σ) (enableFlags : Nat) (at_ : AlarmTime)
    (ie : Nat) (d : Device σ) :
    (setAlarm W enableFlags at_ ie d).bus =
      W.write (W.write (W.write (getRegisters W RTC8564_CONTROL2 1 d).2.bus
        0x01 [andNot8 ((getRegisters W RTC8564_CONTROL2 1 d).1.getD 0 0) 0x02])
        0x09
          [if enableFlags &&& 0x01 ≠ 0 then toBCD at_.minute % 256 else 0x80,
            if enableFlags &&& 0x02 ≠ 0 then toBCD at_.hour % 256 else 0x80,
            if enableFlags &&& 0x04 ≠ 0 then toBCD at_.day % 256 else 0x80,
            if enableFlags &&& 0x08 ≠ 0 then toBCD at_.weekday % 256 else 0x80])
        0x01
          [if ie ≠ 0 then (getRegisters W RTC8564_CONTROL2 1 d).1.getD 0 0 ||| 0x02
            else andNot8 ((getRegisters W RTC8564_CONTROL2 1 d).1.getD 0 0) 0x02] := by
  obtain ⟨_, hc⟩ := getRegisters_one W RTC8564_CONTROL2 d
  obtain ⟨a1, a2⟩ := andNot8_aie _ hc
  simp only [setAlarm, setRegisters, RTC8564_AIE_BIT, a1, a2]
  simp only [getRegisters, List.replicate, List.set, List.take, RTC8564_CONTROL2,
    RTC8564_MINUTE_ALARM, RTC8564_AE_MINUTE, RTC8564_AE_HOUR, RTC8564_AE_DAY,
    RTC8564_AE_WEEKDAY, RTC8564_AE_BIT]

/-- With the voltage-low bit set, `initialise` runs the whole reset sequence. -/
theorem initialise_of_vl_set {σ : Type} (W : Wire σ) (dt : DateTime) (d : Device σ)
    (hvl : (getRegisters W RTC8564_SECONDS 1 d).1.getD 0 0 &&& 0x80 ≠ 0) :
    initialise W dt d =
      setTimer W 0 0 RTC8564_CLK_244US 0 0
        (setClkoutFrequency W 0 RTC8564_CLKOUT_32768HZ
          (setAlarm W RTC8564_AE_NONE (AlarmTime.mk 0 0 0 0) 0
            (setDateTime W dt
              (setRegisters W RTC8564_CONTROL1 2 [RTC8564_STOP_BIT, 0x00]
                (delay 1000 (getRegisters W RTC8564_SECONDS 1 d).2))))) := by
  have hvl2 : (getRegisters W RTC8564_SECONDS 1 d).1.getD 0 0 &&& RTC8564_CAL_VL ≠ 0 := hvl
  unfold initialise
  simp only []
  rw [if_pos hvl2]

/-! ## Claims on the driver -/

/-- C4, as stated, fails: with an empty enable mask the alarm time (minute 5, hour 0,
day 1, weekday 0) is stored as four bare 0x80 bytes, and `getAlarm` reads back minute 0
and day 0. -/
theorem alarm_roundtrip_counterexample :
    (getAlarm regBus
        (setAlarm regBus 0 (AlarmTime.mk 5 0 1 0) 0 (Device.mk (fun _ => 0) []))).1 ≠
      (0, AlarmTime.mk 5 0 1 0) := by
  decide

/-- C4, amended: on the register-file bus, for every enable mask within 0x0f and every
AlarmTime within the chip's ranges, `getAlarm` after `setAlarm` returns the same mask,
the stored value of every field whose bit is in the mask, and 0 for every other field. -/
theorem alarm_roundtrip_armed (mask : Nat) (at_ : AlarmTime) (ie : Nat)
    (d : Device (Nat → Nat)) (hmask : mask ≤ 0x0f)
    (hm : at_.minute ≤ 59) (hh : at_.hour ≤ 23) (hd : 1 ≤ at_.day ∧ at_.day ≤ 31)
    (hw : at_.weekday ≤ 6) :
    (getAlarm regBus (setAlarm regBus mask at_ ie d)).1 =
      (mask,
        { minute := if mask &&& RTC8564_AE_MINUTE ≠ 0 then at_.minute else 0
          hour := if mask &&& RTC8564_AE_HOUR ≠ 0 then at_.hour else 0
          day := if mask &&& RTC8564_AE_DAY ≠ 0 then at_.day else 0
          weekday := if mask &&& RTC8564_AE_WEEKDAY ≠ 0 then at_.weekday else 0 }) := by
  obtain ⟨m1, m2⟩ := bcd7_roundtrip at_.minute (by omega)
  obtain ⟨h1, h2⟩ := bcd6_roundtrip at_.hour (by omega)
  obtain ⟨d1, d2⟩ := bcd6_roundtrip at_.day (by omega)
  obtain ⟨w1, w2⟩ := bcd3_roundtrip at_.weekday (by omega)
  rw [getAlarm_eq regBus _ _ _ _ _ (setAlarm_regBus_image mask at_ ie d)]
  obtain ⟨a0, f0⟩ := alarm_byte (mask &&& RTC8564_AE_MINUTE ≠ 0) _ 0x7f _ 1 m1 m2 (by decide)
  obtain ⟨a1, f1⟩ := alarm_byte (mask &&& RTC8564_AE_HOUR ≠ 0) _ 0x3f _ 2 h1 h2 (by decide)
  obtain ⟨a2, f2⟩ := alarm_byte (mask &&& RTC8564_AE_DAY ≠ 0) _ 0x3f _ 4 d1 d2 (by decide)
  obtain ⟨a3, f3⟩ := alarm_byte (mask &&& RTC8564_AE_WEEKDAY ≠ 0) _ 0x07 _ 8 w1 w2 (by decide)
  rw [a0, a1, a2, a3, f0, f1, f2, f3]
  have hb := mask_bits mask (by omega)
  simp only [RTC8564_AE_MINUTE, RTC8564_AE_HOUR, RTC8564_AE_DAY, RTC8564_AE_WEEKDAY]
  rw [hb]

/-- C4, amended, at mask 0x05 (minute and day armed) and the alarm time 07:45 on day 21,
weekday 3: the hour and the weekday come back as 0. -/
theorem alarm_roundtrip_armed_witness :
    (getAlarm regBus
        (setAlarm regBus 0x05 (AlarmTime.mk 45 7 21 3) 1 (Device.mk (fun _ => 0) []))).1 =
      (0x05, AlarmTime.mk 45 0 21 0) :=
  alarm_roundtrip_armed 0x05 (AlarmTime.mk 45 7 21 3) 1 (Device.mk (fun _ => 0) [])
    (by decide) (by decide) (by decide) (by decide) (by decide)

/-- C5: when the read of the seconds register returns a byte with bit 0x80 set,
`initialise` issues, after that read and the settle delay, exactly these transactions in
this order: the two-byte write [0x20, 0x00] at CONTROL1; `setDateTime` (stop bit, the
seven bytes of `encode dt` at SECONDS, stop bit clear); `setAlarm` (a read of CONTROL2,
giving some byte `c`; `c` without bit 0x02 at CONTROL2; four bytes 0x80 at MINUTE_ALARM;
CONTROL2 again); 0x00 at CLKOUT_FREQUENCY; and last 0x00 at TIMER_CONTROL. No write
follows the one at TIMER_CONTROL and none goes to TIMER (0x0f). The bus state after the
call is the state after exactly these transactions on the transport, `c` being the byte
that the transport returns for the CONTROL2 read. -/
theorem initialise_power_loss {σ : Type} (W : Wire σ) (dt : DateTime) (d : Device σ)
    (hvl : (getRegisters W RTC8564_SECONDS 1 d).1.getD 0 0 &&& 0x80 ≠ 0) :
    ∃ c : Nat, c < 256 ∧
      (initialise W dt d).log =
        d.log ++ [Event.read 0x02 1, Event.delay 1000,
          Event.write 0x00 [0x20, 0x00],
          Event.write 0x00 [0x20],
          Event.write 0x02 (dt.encode (List.replicate 7 0)),
          Event.write 0x00 [0x00],
          Event.read 0x01 1,
          Event.write 0x01 [andNot8 c 0x02],
          Event.write 0x09 [0x80, 0x80, 0x80, 0x80],
          Event.write 0x01 [andNot8 c 0x02],
          Event.write 0x0d [0x00],
          Event.write 0x0e [0x00]] ∧
      (dt.encode (List.replicate 7 0)).length = 7 ∧
      c =
        (W.read
          (W.write (W.write (W.write (W.write (W.read d.bus 0x02 1).2
            0x00 [0x20, 0x00]) 0x00 [0x20]) 0x02 (dt.encode (List.replicate 7 0)))
            0x00 [0x00]) 0x01 1).1.getD 0 0 % 256 ∧
      (initialise W dt d).bus =
        W.write (W.write (W.write (W.write (W.write
          (W.read
            (W.write (W.write (W.write (W.write (W.read d.bus 0x02 1).2
              0x00 [0x20, 0x00]) 0x00 [0x20]) 0x02 (dt.encode (List.replicate 7 0)))
              0x00 [0x00]) 0x01 1).2
          0x01 [andNot8 c 0x02])
          0x09 [0x80, 0x80, 0x80, 0x80])
          0x01 [andNot8 c 0x02])
          0x0d [0x00]) 0x0e [0x00] := by
  have hrun : initialise W dt d =
      setTimer W 0 0 RTC8564_CLK_244US 0 0
        (setClkoutFrequency W 0 RTC8564_CLKOUT_32768HZ
          (setAlarm W RTC8564_AE_NONE (AlarmTime.mk 0 0 0 0) 0
            (setDateTime W dt
              (setRegisters W RTC8564_CONTROL1 2 [RTC8564_STOP_BIT, 0x00]
                (delay 1000 (getRegisters W RTC8564_SECONDS 1 d).2))))) := by
    have hvl2 : (getRegisters W RTC8564_SECONDS 1 d).1.getD 0 0 &&& RTC8564_CAL_VL ≠ 0 := hvl
    unfold initialise
    simp only []
    rw [if_pos hvl2]
  obtain ⟨hc1, hc⟩ := getRegisters_one W RTC8564_CONTROL2
    (setDateTime W dt
      (setRegisters W RTC8564_CONTROL1 2 [RTC8564_STOP_BIT, 0x00]
        (delay 1000 (getRegisters W RTC8564_SECONDS 1 d).2)))
  have hread : (getRegisters W RTC8564_CONTROL2 1
      (setDateTime W dt
        (setRegisters W RTC8564_CONTROL1 2 [RTC8564_STOP_BIT, 0x00]
          (delay 1000 (getRegisters W RTC8564_SECONDS 1 d).2)))).1.getD 0 0 =
      (W.read
        (W.write (W.write (W.write (W.write (W.read d.bus 0x02 1).2
          0x00 [0x20, 0x00]) 0x00 [0x20]) 0x02 (dt.encode (List.replicate 7 0)))
          0x00 [0x00]) 0x01 1).1.getD 0 0 % 256 := by
    rw [hc1, setDateTime_bus]
    rfl
  refine ⟨_, hc, ?_, ?_, hread, ?_⟩
  · rw [hrun, setTimer_off, setClkoutFrequency_log, setAlarm_log, setDateTime_log]
    simp [setRegisters, delay, getRegisters, RTC8564_AE_NONE, RTC8564_CONTROL1,
      RTC8564_SECONDS, RTC8564_STOP_BIT, RTC8564_CLKOUT_32768HZ, andNot8]
  · rw [encode_eq dt _ (by decide)]
    rfl
  · have e1 := encode_eq dt ((List.replicate 7 0).set 0 RTC8564_STOP_BIT) (by decide)
    have e2 := encode_eq dt (List.replicate 7 0) (by decide)
    have hz : ¬ ((0 : Nat) ≠ 0) := fun h => h rfl
    have hclk : andNot8 RTC8564_CLKOUT_32768HZ RTC8564_FE_BIT = 0x00 := by decide
    rw [hread, hrun]
    simp only [setTimer, setClkoutFrequency, setAlarm, setDateTime, setRegisters,
      getRegisters, delay, if_neg hz, hclk]
    rw [e1, e2]
    simp [RTC8564_AE_NONE, RTC8564_CONTROL1, RTC8564_CONTROL2, RTC8564_SECONDS,
      RTC8564_STOP_BIT, RTC8564_MINUTE_ALARM, RTC8564_CLKOUT_FREQUENCY,
      RTC8564_TIMER_CONTROL, RTC8564_AE_BIT, RTC8564_AIE_BIT, List.set, andNot8,
      Nat.and_assoc]

/-- C5 on the register-file bus with every register holding 0x80 (voltage-low set) and
the default time 2000-01-01 00:00:00, weekday 6: CONTROL2 reads back the 0x00 written by
the first write, so `c` = 0, and the registers end as the nine writes leave them. -/
theorem initialise_power_loss_witness :
    (getRegisters regBus RTC8564_SECONDS 1 (Device.mk (fun _ => 0x80) [])).1.getD 0 0
        &&& 0x80 ≠ 0 ∧
    ∃ c : Nat, c < 256 ∧
      (initialise regBus (DateTime.mk 0 0 0 1 1 0 6) (Device.mk (fun _ => 0x80) [])).log =
        [] ++ [Event.read 0x02 1, Event.delay 1000,
          Event.write 0x00 [0x20, 0x00],
          Event.write 0x00 [0x20],
          Event.write 0x02 ((DateTime.mk 0 0 0 1 1 0 6).encode (List.replicate 7 0)),
          Event.write 0x00 [0x00],
          Event.read 0x01 1,
          Event.write 0x01 [andNot8 c 0x02],
          Event.write 0x09 [0x80, 0x80, 0x80, 0x80],
          Event.write 0x01 [andNot8 c 0x02],
          Event.write 0x0d [0x00],
          Event.write 0x0e [0x00]] ∧
      ((DateTime.mk 0 0 0 1 1 0 6).encode (List.replicate 7 0)).length = 7 ∧
      c =
        (regBus.read
          (regBus.write (regBus.write (regBus.write (regBus.write
            (regBus.read (fun _ => 0x80) 0x02 1).2
            0x00 [0x20, 0x00]) 0x00 [0x20])
            0x02 ((DateTime.mk 0 0 0 1 1 0 6).encode (List.replicate 7 0)))
            0x00 [0x00]) 0x01 1).1.getD 0 0 % 256 ∧
      (initialise regBus (DateTime.mk 0 0 0 1 1 0 6) (Device.mk (fun _ => 0x80) [])).bus =
        regBus.write (regBus.write (regBus.write (regBus.write (regBus.write
          (regBus.read
            (regBus.write (regBus.write (regBus.write (regBus.write
              (regBus.read (fun _ => 0x80) 0x02 1).2
              0x00 [0x20, 0x00]) 0x00 [0x20])
              0x02 ((DateTime.mk 0 0 0 1 1 0 6).encode (List.replicate 7 0)))
              0x00 [0x00]) 0x01 1).2
          0x01 [andNot8 c 0x02])
          0x09 [0x80, 0x80, 0x80, 0x80])
          0x01 [andNot8 c 0x02])
          0x0d [0x00]) 0x0e [0x00] :=
  ⟨by decide,
    initialise_power_loss regBus (DateTime.mk 0 0 0 1 1 0 6) (Device.mk (fun _ => 0x80) [])
      (by decide)⟩

/-- C6: when the read of the seconds register returns a byte with bit 0x80 clear,
`initialise` issues that one read and nothing else, for every default time: the log gains
no write, the bus has seen only the read transaction, and on the register-file bus every
register is left as it was. -/
theorem initialise_noop {σ : Type} (W : Wire σ) (dt : DateTime) (d : Device σ)
    (hvl : (getRegisters W RTC8564_SECONDS 1 d).1.getD 0 0 &&& 0x80 = 0) :
    (initialise W dt d).log = d.log ++ [Event.read 0x02 1] ∧
    writes (initialise W dt d).log = writes d.log ∧
    (initialise W dt d).bus = (W.read d.bus 0x02 1).2 ∧
    (∀ (regs : Nat → Nat) (log : List Event), regs 0x02 % 256 &&& 0x80 = 0 →
      (initialise regBus dt (Device.mk regs log)).bus = regs) := by
  have hrun := initialise_of_vl_clear W dt d hvl
  refine ⟨by rw [hrun]; rfl, ?_, by rw [hrun]; rfl, ?_⟩
  · rw [hrun]
    exact writes_append_read d.log _ _
  · intro regs log h
    rw [initialise_of_vl_clear regBus dt (Device.mk regs log) h]
    rfl

/-- C6 on the register-file bus with every register holding 0x59 and an empty log. -/
theorem initialise_noop_witness :
    (getRegisters regBus RTC8564_SECONDS 1 (Device.mk (fun _ => 0x59) [])).1.getD 0 0
        &&& 0x80 = 0 ∧
    (initialise regBus (DateTime.mk 0 0 0 1 1 0 6) (Device.mk (fun _ => 0x59) [])).log =
      [] ++ [Event.read 0x02 1] ∧
    writes (initialise regBus (DateTime.mk 0 0 0 1 1 0 6) (Device.mk (fun _ => 0x59) [])).log =
      writes [] ∧
    (initialise regBus (DateTime.mk 0 0 0 1 1 0 6) (Device.mk (fun _ => 0x59) [])).bus =
      (fun _ => 0x59) :=
  ⟨by decide,
    (initialise_noop regBus (DateTime.mk 0 0 0 1 1 0 6) (Device.mk (fun _ => 0x59) [])
      (by decide)).1,
    (initialise_noop regBus (DateTime.mk 0 0 0 1 1 0 6) (Device.mk (fun _ => 0x59) [])
      (by decide)).2.1,
    (initialise_noop regBus (DateTime.mk 0 0 0 1 1 0 6) (Device.mk (fun _ => 0x59) [])
      (by decide)).2.2.2 (fun _ => 0x59) [] (by decide)⟩

/-- C7: for every CONTROL2 byte `c` returned by the read, `clearAlarmFlag` issues that
read and one write, of `c` without bit 0x08, to CONTROL2; `clearTimerFlag` does the same
with bit 0x04. Every other bit of the written byte is the bit of `c`. The bus state after
the call is the state after the read followed by that write on the transport. -/
theorem clear_flag_writes {σ : Type} (W : Wire σ) (d : Device σ) (c : Nat)
    (hc : (getRegisters W RTC8564_CONTROL2 1 d).1 = [c]) :
    (clearAlarmFlag W d).log =
      d.log ++ [Event.read 0x01 1, Event.write 0x01 [andNot8 c 0x08]] ∧
    (clearTimerFlag W d).log =
      d.log ++ [Event.read 0x01 1, Event.write 0x01 [andNot8 c 0x04]] ∧
    (∀ i, (andNot8 c 0x08).testBit i = (c.testBit i && decide (i ≠ 3))) ∧
    (∀ i, (andNot8 c 0x04).testBit i = (c.testBit i && decide (i ≠ 2))) ∧
    (clearAlarmFlag W d).bus = W.write (W.read d.bus 0x01 1).2 0x01 [andNot8 c 0x08] ∧
    (clearTimerFlag W d).bus = W.write (W.read d.bus 0x01 1).2 0x01 [andNot8 c 0x04] := by
  have hlt : c < 256 := by
    have h := (getRegisters_one W RTC8564_CONTROL2 d).2
    rw [hc] at h
    exact h
  have hbit : ∀ n i : Nat, (!(2 ^ n).testBit i) = decide (i ≠ n) := by
    intro n i
    rw [Nat.testBit_two_pow]
    by_cases h : n = i
    · subst h
      simp
    · have h2 : i ≠ n := fun e => h e.symm
      simp [h, h2]
  have hbusA : (clearAlarmFlag W d).bus =
      W.write (W.read d.bus 0x01 1).2 0x01
        [andNot8 ((getRegisters W RTC8564_CONTROL2 1 d).1.getD 0 0) 0x08] := rfl
  have hbusT : (clearTimerFlag W d).bus =
      W.write (W.read d.bus 0x01 1).2 0x01
        [andNot8 ((getRegisters W RTC8564_CONTROL2 1 d).1.getD 0 0) 0x04] := rfl
  rw [hc] at hbusA hbusT
  refine ⟨?_, ?_, ?_, ?_, hbusA, hbusT⟩
  · simp only [clearAlarmFlag, setRegisters, hc]
    simp [getRegisters, RTC8564_CONTROL2, RTC8564_AF_BIT]
  · simp only [clearTimerFlag, setRegisters, hc]
    simp [getRegisters, RTC8564_CONTROL2, RTC8564_TF_BIT]
  · intro i
    rw [andNot8_testBit c 0x08 i hlt, ← hbit 3 i]
    rfl
  · intro i
    rw [andNot8_testBit c 0x04 i hlt, ← hbit 2 i]
    rfl

/-- C7 on the register-file bus with CONTROL2 = 0x09 (alarm flag and timer interrupt
enable): `clearAlarmFlag` writes back 0x01, and CONTROL2 then holds 0x01. -/
theorem clear_flag_writes_witness :
    (getRegisters regBus RTC8564_CONTROL2 1 (Device.mk (fun _ => 0x09) [])).1 = [0x09] ∧
    (clearAlarmFlag regBus (Device.mk (fun _ => 0x09) [])).log =
      [] ++ [Event.read 0x01 1, Event.write 0x01 [andNot8 0x09 0x08]] ∧
    andNot8 0x09 0x08 = 0x01 ∧
    (clearAlarmFlag regBus (Device.mk (fun _ => 0x09) [])).bus RTC8564_CONTROL2 = 0x01 ∧
    (clearTimerFlag regBus (Device.mk (fun _ => 0x0d) [])).bus RTC8564_CONTROL2 = 0x09 :=
  ⟨by decide,
    (clear_flag_writes regBus (Device.mk (fun _ => 0x09) []) 0x09 (by decide)).1,
    by decide,
    (congrFun (clear_flag_writes regBus (Device.mk (fun _ => 0x09) []) 0x09
      (by decide)).2.2.2.2.1 RTC8564_CONTROL2).trans (by decide),
    (congrFun (clear_flag_writes regBus (Device.mk (fun _ => 0x0d) []) 0x0d
      (by decide)).2.2.2.2.2 RTC8564_CONTROL2).trans (by decide)⟩

/-- C8: for every DateTime `t`, `setDateTime` issues exactly three transactions, all
writes: 0x20 (the stop bit) to CONTROL1, the seven bytes of `encode t` starting at
SECONDS, and 0x00 (stop bit clear) to CONTROL1. The bus state after the call is the state
after these three writes on the transport. -/
theorem setDateTime_trace {σ : Type} (W : Wire σ) (t : DateTime) (d : Device σ) :
    (setDateTime W t d).log =
      d.log ++ [Event.write 0x00 [0x20], Event.write 0x02 (t.encode (List.replicate 7 0)),
        Event.write 0x00 [0x00]] ∧
    (t.encode (List.replicate 7 0)).length = 7 ∧
    0x20 &&& RTC8564_STOP_BIT ≠ 0 ∧ 0x00 &&& RTC8564_STOP_BIT = 0 ∧
    (setDateTime W t d).bus =
      W.write (W.write (W.write d.bus 0x00 [0x20]) 0x02 (t.encode (List.replicate 7 0)))
        0x00 [0x00] := by
  have e1 := encode_eq t ((List.replicate 7 0).set 0 RTC8564_STOP_BIT) (by decide)
  have e2 := encode_eq t (List.replicate 7 0) (by decide)
  refine ⟨setDateTime_log W t d, ?_, by decide, by decide, ?_⟩
  · rw [e2]
    rfl
  · simp only [setDateTime, setRegisters]
    rw [e1, e2]
    simp [RTC8564_CONTROL1, RTC8564_SECONDS, RTC8564_STOP_BIT, List.set]

/-- C8 on the register-file bus with every register holding 0xff, at 12:34:56 on day 21
of month 7, year 24, weekday 3: the calendar registers 0x02..0x08 then hold the encoded
bytes and CONTROL1 holds 0x00. -/
theorem setDateTime_trace_witness :
    (setDateTime regBus (DateTime.mk 56 34 12 21 7 24 3) (Device.mk (fun _ => 0xff) [])).log =
      [Event.write 0x00 [0x20], Event.write 0x02 [0x56, 0x34, 0x12, 0x21, 0x03, 0x07, 0x24],
        Event.write 0x00 [0x00]] ∧
    (List.range 10).map
        (setDateTime regBus (DateTime.mk 56 34 12 21 7 24 3) (Device.mk (fun _ => 0xff) [])).bus =
      [0x00, 0xff, 0x56, 0x34, 0x12, 0x21, 0x03, 0x07, 0x24, 0xff] :=
  ⟨(setDateTime_trace regBus (DateTime.mk 56 34 12 21 7 24 3)
      (Device.mk (fun _ => 0xff) [])).1,
    (congrArg (fun b => (List.range 10).map b)
      (setDateTime_trace regBus (DateTime.mk 56 34 12 21 7 24 3)
        (Device.mk (fun _ => 0xff) [])).2.2.2.2).trans (by decide)⟩

/-- C9: for every CONTROL2 byte `c` returned by the read, every `enableFlags`, every
AlarmTime with fields at most 99 and every `interruptEnable`, `setAlarm` issues that read
and then exactly three writes: `c` without bit 0x02 to CONTROL2; four bytes at
MINUTE_ALARM, byte i being the BCD of its field when bit (1 << i) of `enableFlags` is
set and 0x80 otherwise; and to CONTROL2 `c` with bit 0x02 set when `interruptEnable` is
non-zero, cleared when it is zero. Both CONTROL2 bytes have every other bit of `c`. The
bus state after the call is the state after the read and these three writes on the
transport. -/
theorem setAlarm_trace {σ : Type} (W : Wire σ) (enableFlags : Nat) (at_ : AlarmTime)
    (interruptEnable : Nat) (d : Device σ) (c : Nat)
    (hc : (getRegisters W RTC8564_CONTROL2 1 d).1 = [c])
    (hm : at_.minute ≤ 99) (hh : at_.hour ≤ 99) (hd : at_.day ≤ 99) (hw : at_.weekday ≤ 99) :
    (setAlarm W enableFlags at_ interruptEnable d).log =
      d.log ++ [Event.read 0x01 1,
        Event.write 0x01 [andNot8 c 0x02],
        Event.write 0x09
          [if enableFlags &&& (1 <<< 0) ≠ 0 then toBCD at_.minute else 0x80,
            if enableFlags &&& (1 <<< 1) ≠ 0 then toBCD at_.hour else 0x80,
            if enableFlags &&& (1 <<< 2) ≠ 0 then toBCD at_.day else 0x80,
            if enableFlags &&& (1 <<< 3) ≠ 0 then toBCD at_.weekday else 0x80],
        Event.write 0x01 [if interruptEnable ≠ 0 then c ||| 0x02 else andNot8 c 0x02]] ∧
    (∀ i, (andNot8 c 0x02).testBit i = (c.testBit i && decide (i ≠ 1))) ∧
    (∀ i, (c ||| 0x02).testBit i = (c.testBit i || decide (i = 1))) ∧
    (setAlarm W enableFlags at_ interruptEnable d).bus =
      W.write (W.write (W.write (W.read d.bus 0x01 1).2
        0x01 [andNot8 c 0x02])
        0x09
          [if enableFlags &&& (1 <<< 0) ≠ 0 then toBCD at_.minute else 0x80,
            if enableFlags &&& (1 <<< 1) ≠ 0 then toBCD at_.hour else 0x80,
            if enableFlags &&& (1 <<< 2) ≠ 0 then toBCD at_.day else 0x80,
            if enableFlags &&& (1 <<< 3) ≠ 0 then toBCD at_.weekday else 0x80])
        0x01 [if interruptEnable ≠ 0 then c ||| 0x02 else andNot8 c 0x02] := by
  have hlt : c < 256 := by
    have h := (getRegisters_one W RTC8564_CONTROL2 d).2
    rw [hc] at h
    exact h
  obtain ⟨a1, a2⟩ := andNot8_aie c hlt
  refine ⟨?_, ?_, ?_, ?_⟩
  rotate_left 3
  · simp only [setAlarm, setRegisters, hc, List.getD_cons_zero, RTC8564_AIE_BIT, a1, a2,
      toBCD_lt _ (show at_.minute < 100 by omega), toBCD_lt _ (show at_.hour < 100 by omega),
      toBCD_lt _ (show at_.day < 100 by omega), toBCD_lt _ (show at_.weekday < 100 by omega)]
    simp only [getRegisters, List.replicate, List.set, List.take, RTC8564_CONTROL2,
      RTC8564_MINUTE_ALARM, RTC8564_AE_MINUTE, RTC8564_AE_HOUR, RTC8564_AE_DAY,
      RTC8564_AE_WEEKDAY, RTC8564_AE_BIT]
    rfl
  · rw [setAlarm_log, hc, toBCD_lt _ (show at_.minute < 100 by omega),
      toBCD_lt _ (show at_.hour < 100 by omega), toBCD_lt _ (show at_.day < 100 by omega),
      toBCD_lt _ (show at_.weekday < 100 by omega)]
    rfl
  · intro i
    rw [andNot8_testBit c 0x02 i hlt]
    have h2 : (0x02 : Nat).testBit i = decide (1 = i) := @Nat.testBit_two_pow 1 i
    rw [h2]
    by_cases h : 1 = i
    · subst h
      simp
    · have h3 : i ≠ 1 := fun e => h e.symm
      simp [h, h3]
  · intro i
    rw [Nat.testBit_lor]
    have h2 : (0x02 : Nat).testBit i = decide (1 = i) := @Nat.testBit_two_pow 1 i
    rw [h2]
    by_cases h : 1 = i
    · subst h
      simp
    · have h3 : i ≠ 1 := fun e => h e.symm
      simp [h, h3]

/-- C9 on the register-file bus with CONTROL2 = 0x1f, hour and weekday armed, the alarm
time 07:45 on day 21, weekday 3, and the interrupt left disabled: CONTROL2 then holds
0x1d and the alarm registers 0x09..0x0c hold 0x80, 0x07, 0x80, 0x03. -/
theorem setAlarm_trace_witness :
    (getRegisters regBus RTC8564_CONTROL2 1 (Device.mk (fun _ => 0x1f) [])).1 = [0x1f] ∧
    (setAlarm regBus 0x0a (AlarmTime.mk 45 7 21 3) 0 (Device.mk (fun _ => 0x1f) [])).log =
      [Event.read 0x01 1, Event.write 0x01 [0x1d], Event.write 0x09 [0x80, 0x07, 0x80, 0x03],
        Event.write 0x01 [0x1d]] ∧
    (List.range 14).map
        (setAlarm regBus 0x0a (AlarmTime.mk 45 7 21 3) 0 (Device.mk (fun _ => 0x1f) [])).bus =
      [0x1f, 0x1d, 0x1f, 0x1f, 0x1f, 0x1f, 0x1f, 0x1f, 0x1f, 0x80, 0x07, 0x80, 0x03, 0x1f] :=
  ⟨by decide,
    (setAlarm_trace regBus 0x0a (AlarmTime.mk 45 7 21 3) 0 (Device.mk (fun _ => 0x1f) []) 0x1f
      (by decide) (by decide) (by decide) (by decide) (by decide)).1,
    (congrArg (fun b => (List.range 14).map b)
      (setAlarm_trace regBus 0x0a (AlarmTime.mk 45 7 21 3) 0 (Device.mk (fun _ => 0x1f) [])
        0x1f (by decide) (by decide) (by decide) (by decide) (by decide)).2.2.2).trans
      (by decide)⟩

/-- C10: with `enableFlag` = 0 and any other arguments, `setTimer` issues exactly one
transaction, the one-byte write of 0x00 to TIMER_CONTROL (0x0e): no read, and the bus sees
no write to CONTROL2 or TIMER. -/
theorem setTimer_disabled {σ : Type} (W : Wire σ)
    (repeatMode clockMode counter interruptEnable : Nat) (d : Device σ) :
    (setTimer W 0 repeatMode clockMode counter interruptEnable d).log =
      d.log ++ [Event.write RTC8564_TIMER_CONTROL [0x00]] ∧
    (setTimer W 0 repeatMode clockMode counter interruptEnable d).bus =
      W.write d.bus RTC8564_TIMER_CONTROL [0x00] ∧
    RTC8564_TIMER_CONTROL = 0x0e := by
  rw [setTimer_off]
  exact ⟨rfl, rfl, rfl⟩

/-! ## Further bus lemmas -/

/-- An OR of two `uint8_t` values is a `uint8_t`: the store truncates nothing. -/
theorem or_mod_256 (x m : Nat) (hx : x < 256) (hm : m < 256) : (x ||| m) % 256 = x ||| m :=
  Nat.mod_eq_of_lt (Nat.or_lt_two_pow (n := 8) hx hm)

/-- Clearing bits of a `uint8_t` leaves a `uint8_t`. -/
theorem andNot8_lt (c m : Nat) (hc : c < 256) : andNot8 c m < 256 :=
  lt_of_le_of_lt Nat.and_le_left hc

/-- The byte read by a one-byte `getRegisters` is a `uint8_t`. -/
theorem read_byte_lt {σ : Type} (W : Wire σ) (address : Nat) (d : Device σ) (c : Nat)
    (hc : (getRegisters W address 1 d).1 = [c]) : c < 256 := by
  have h := (getRegisters_one W address d).2
  rw [hc] at h
  exact h

/-- The byte that `setTimer` stores last into `control2`: the two conditional ORs, each
stored into a `uint8_t`, lose nothing. -/
theorem setTimer_control2 (c repeatMode ie : Nat) (hlt : c < 256) :
    (if ie ≠ 0 then
        ((if repeatMode ≠ 0 then (andNot8 c 0x15 ||| 0x10) % 256 else andNot8 c 0x15)
          ||| 0x01) % 256
      else (if repeatMode ≠ 0 then (andNot8 c 0x15 ||| 0x10) % 256 else andNot8 c 0x15)) =
      andNot8 c 0x15 ||| (if repeatMode ≠ 0 then 0x10 else 0) |||
        (if ie ≠ 0 then 0x01 else 0) := by
  have ha := andNot8_lt c 0x15 hlt
  have h10 := or_mod_256 (andNot8 c 0x15) 0x10 ha (by decide)
  have h10lt : andNot8 c 0x15 ||| 0x10 < 256 := Nat.or_lt_two_pow (n := 8) ha (by decide)
  by_cases hr : repeatMode ≠ 0 <;> by_cases hi : ie ≠ 0
  · simp only [if_pos hr, if_pos hi, h10, or_mod_256 _ 0x01 h10lt (by decide)]
  · simp only [if_pos hr, if_neg hi, h10, Nat.or_zero]
  · simp only [if_neg hr, if_pos hi, Nat.or_zero, or_mod_256 _ 0x01 ha (by decide)]
  · simp only [if_neg hr, if_neg hi, Nat.or_zero]

/-- The events of `setTimer` with a non-zero `enableFlag`, in terms of the CONTROL2 byte
`c` read after the first write. -/
theorem setTimer_on {σ : Type} (W : Wire σ)
    (enableFlag repeatMode clockMode counter ie : Nat) (d : Device σ) (c : Nat)
    (hen : enableFlag ≠ 0)
    (hc : (getRegisters W RTC8564_CONTROL2 1
      (setRegisters W RTC8564_TIMER_CONTROL 1 [0x00] d)).1 = [c]) :
    (setTimer W enableFlag repeatMode clockMode counter ie d).log =
      d.log ++ [Event.write 0x0e [0x00], Event.read 0x01 1,
        Event.write 0x01 [andNot8 c 0x15],
        Event.write 0x01
          [andNot8 c 0x15 ||| (if repeatMode ≠ 0 then 0x10 else 0) |||
            (if ie ≠ 0 then 0x01 else 0)],
        Event.write 0x0f [counter],
        Event.write 0x0e [(clockMode ||| 0x80) % 256]] := by
  have hlt := read_byte_lt W _ _ c hc
  have hc2 : (getRegisters W RTC8564_CONTROL2 1
      (setRegisters W RTC8564_TIMER_CONTROL 1 ((List.replicate 4 0).set 0 0) d)).1 = [c] := hc
  have hv := setTimer_control2 c repeatMode ie hlt
  unfold setTimer
  simp only [if_pos hen, hc2, List.getD_cons_zero, RTC8564_TITP_BIT, RTC8564_TF_BIT,
    RTC8564_TIE_BIT, RTC8564_TE_BIT]
  have h15 : (0x10 ||| 0x04 ||| 0x01 : Nat) = 0x15 := by decide
  rw [h15, hv]
  simp only [setRegisters, getRegisters, List.append_assoc, List.singleton_append,
    List.cons_append, List.nil_append, List.replicate, List.set, List.take,
    RTC8564_CONTROL2, RTC8564_TIMER_CONTROL, RTC8564_TIMER]

/-- Bit `i` of a conditional one-bit mask `cond ? 2^n : 0`. -/
theorem cond_bit_testBit (p : Prop) [Decidable p] (n i : Nat) :
    (if p then 2 ^ n else 0).testBit i = (decide p && decide (n = i)) := by
  by_cases hp : p
  · rw [if_pos hp, Nat.testBit_two_pow]
    simp [hp]
  · rw [if_neg hp, Nat.zero_testBit]
    simp [hp]

/-- The bits of 0x15: the timer repeat, flag and interrupt-enable bits 4, 2 and 0. -/
theorem testBit_0x15 (i : Nat) :
    (0x15 : Nat).testBit i = (decide (4 = i) || decide (2 = i) || decide (0 = i)) := by
  have h : (0x15 : Nat) = 2 ^ 4 ||| 2 ^ 2 ||| 2 ^ 0 := by decide
  rw [h, Nat.testBit_or, Nat.testBit_or, Nat.testBit_two_pow, Nat.testBit_two_pow,
    Nat.testBit_two_pow]

/-! ## Claims on the timer and the clock output -/

/-- C11: with a non-zero `enableFlag`, for every CONTROL2 byte `c` returned by the read
and every `repeatMode`, `clockMode`, `counter` and `interruptEnable`, `setTimer` issues:
0x00 to TIMER_CONTROL (0x0e) first; the read of CONTROL2; `c` without the bits 0x15 to
CONTROL2; then, as the last CONTROL2 write, that byte with bit 0x10 set iff `repeatMode`
is non-zero and bit 0x01 set iff `interruptEnable` is non-zero (bit 0x04 clear, every
other bit that of `c`); then `counter` to TIMER (0x0f); and last `clockMode | 0x80` to
TIMER_CONTROL. The bus state after the call is the state after the first write, the read
and these four writes on the transport. -/
theorem setTimer_enabled_trace {σ : Type} (W : Wire σ)
    (enableFlag repeatMode clockMode counter interruptEnable : Nat) (d : Device σ) (c : Nat)
    (hen : enableFlag ≠ 0)
    (hc : (getRegisters W RTC8564_CONTROL2 1
      (setRegisters W RTC8564_TIMER_CONTROL 1 [0x00] d)).1 = [c])
    (hcm : clockMode < 256) :
    (setTimer W enableFlag repeatMode clockMode counter interruptEnable d).log =
      d.log ++ [Event.write 0x0e [0x00], Event.read 0x01 1,
        Event.write 0x01 [andNot8 c 0x15],
        Event.write 0x01
          [andNot8 c 0x15 ||| (if repeatMode ≠ 0 then 0x10 else 0) |||
            (if interruptEnable ≠ 0 then 0x01 else 0)],
        Event.write 0x0f [counter],
        Event.write 0x0e [clockMode ||| 0x80]] ∧
    (∀ i, (andNot8 c 0x15 ||| (if repeatMode ≠ 0 then 0x10 else 0) |||
          (if interruptEnable ≠ 0 then 0x01 else 0)).testBit i =
        if i = 4 then decide (repeatMode ≠ 0)
        else if i = 0 then decide (interruptEnable ≠ 0)
        else if i = 2 then false
        else c.testBit i) ∧
    (clockMode ||| 0x80) &&& RTC8564_TE_BIT ≠ 0 ∧
    (setTimer W enableFlag repeatMode clockMode counter interruptEnable d).bus =
      W.write (W.write (W.write (W.write
        (W.read (W.write d.bus 0x0e [0x00]) 0x01 1).2
        0x01 [andNot8 c 0x15])
        0x01
          [andNot8 c 0x15 ||| (if repeatMode ≠ 0 then 0x10 else 0) |||
            (if interruptEnable ≠ 0 then 0x01 else 0)])
        0x0f [counter])
        0x0e [clockMode ||| 0x80] := by
  have hlt := read_byte_lt W _ _ c hc
  refine ⟨?_, ?_, ?_, ?_⟩
  rotate_left 3
  · have hc2 : (getRegisters W RTC8564_CONTROL2 1
        (setRegisters W RTC8564_TIMER_CONTROL 1 ((List.replicate 4 0).set 0 0) d)).1 = [c] := hc
    have hv := setTimer_control2 c repeatMode interruptEnable hlt
    have h15 : (0x10 ||| 0x04 ||| 0x01 : Nat) = 0x15 := by decide
    unfold setTimer
    simp only [if_pos hen, hc2, List.getD_cons_zero, RTC8564_TITP_BIT, RTC8564_TF_BIT,
      RTC8564_TIE_BIT, RTC8564_TE_BIT]
    rw [h15, hv, or_mod_256 clockMode 0x80 hcm (by decide)]
    simp only [setRegisters, getRegisters, List.replicate, List.set, List.take,
      RTC8564_CONTROL2, RTC8564_TIMER_CONTROL, RTC8564_TIMER]
  · rw [setTimer_on W enableFlag repeatMode clockMode counter interruptEnable d c hen hc,
      or_mod_256 clockMode 0x80 hcm (by decide)]
  · intro i
    have hr := cond_bit_testBit (repeatMode ≠ 0) 4 i
    have hi := cond_bit_testBit (interruptEnable ≠ 0) 0 i
    have h4 : (2 : Nat) ^ 4 = 0x10 := by decide
    have h0 : (2 : Nat) ^ 0 = 0x01 := by decide
    rw [h4] at hr
    rw [h0] at hi
    rw [Nat.testBit_or, Nat.testBit_or, hr, hi, andNot8_testBit c 0x15 i hlt, testBit_0x15]
    by_cases e4 : i = 4
    · subst e4
      simp
    · by_cases e0 : i = 0
      · subst e0
        simp
      · by_cases e2 : i = 2
        · subst e2
          simp
        · have n4 : ¬ (4 = i) := fun e => e4 e.symm
          have n2 : ¬ (2 = i) := fun e => e2 e.symm
          have n0 : ¬ (0 = i) := fun e => e0 e.symm
          simp [e4, e0, e2, n4, n2, n0]
  · intro h
    have hb : ((clockMode ||| 0x80) &&& 0x80).testBit 7 = true := by
      rw [Nat.testBit_and, Nat.testBit_or]
      have : (0x80 : Nat).testBit 7 = true := by decide
      simp [this]
    have h2 : (clockMode ||| 0x80) &&& 0x80 = 0 := h
    rw [h2] at hb
    simp at hb

/-- C11 on the register-file bus with every register holding 0xff: repeat mode on,
divider `RTC8564_CLK_1MIN`, counter 77, interrupt enabled. CONTROL2 then holds 0xfb, TIMER
holds 77 and TIMER_CONTROL holds 0x83. -/
theorem setTimer_enabled_trace_witness :
    (getRegisters regBus RTC8564_CONTROL2 1
      (setRegisters regBus RTC8564_TIMER_CONTROL 1 [0x00]
        (Device.mk (fun _ => 0xff) []))).1 = [0xff] ∧
    (setTimer regBus 1 1 RTC8564_CLK_1MIN 77 1 (Device.mk (fun _ => 0xff) [])).log =
      [Event.write 0x0e [0x00], Event.read 0x01 1, Event.write 0x01 [0xea],
        Event.write 0x01 [0xfb], Event.write 0x0f [77], Event.write 0x0e [0x83]] ∧
    [0x00, 0x01, 0x0d, 0x0e, 0x0f].map
        (setTimer regBus 1 1 RTC8564_CLK_1MIN 77 1 (Device.mk (fun _ => 0xff) [])).bus =
      [0xff, 0xfb, 0xff, 0x83, 77] :=
  ⟨by decide,
    (setTimer_enabled_trace regBus 1 1 RTC8564_CLK_1MIN 77 1 (Device.mk (fun _ => 0xff) [])
      0xff (by decide) (by decide) (by decide)).1,
    (congrArg (fun b => [0x00, 0x01, 0x0d, 0x0e, 0x0f].map b)
      (setTimer_enabled_trace regBus 1 1 RTC8564_CLK_1MIN 77 1
        (Device.mk (fun _ => 0xff) []) 0xff (by decide) (by decide) (by decide)).2.2.2).trans
      (by decide)⟩

/-- C12: for every `enableFlag` and every frequency byte `f`, `setClkoutFrequency` issues
exactly one transaction, a one-byte write to CLKOUT_FREQUENCY (0x0d), of `f | 0x80` when
`enableFlag` is non-zero and of `f & 0x7f` when it is zero; either way the low seven bits
of the written byte are those of `f`. -/
theorem setClkoutFrequency_trace {σ : Type} (W : Wire σ) (enableFlag f : Nat)
    (d : Device σ) (hf : f < 256) :
    (setClkoutFrequency W enableFlag f d).log =
      d.log ++ [Event.write 0x0d [if enableFlag ≠ 0 then f ||| 0x80 else f &&& 0x7f]] ∧
    (setClkoutFrequency W enableFlag f d).bus =
      W.write d.bus 0x0d [if enableFlag ≠ 0 then f ||| 0x80 else f &&& 0x7f] ∧
    (if enableFlag ≠ 0 then f ||| 0x80 else f &&& 0x7f) &&& 0x7f = f &&& 0x7f := by
  have hor := or_mod_256 f 0x80 hf (by decide)
  have hand : andNot8 f 0x80 = f &&& 0x7f := rfl
  refine ⟨?_, ?_, ?_⟩
  · rw [setClkoutFrequency_log, hor, hand]
  · simp only [setClkoutFrequency, setRegisters, RTC8564_FE_BIT, hor, hand,
      RTC8564_CLKOUT_FREQUENCY, List.take]
  · by_cases he : enableFlag ≠ 0
    · rw [if_pos he]
      apply Nat.eq_of_testBit_eq
      intro i
      rw [Nat.testBit_and, Nat.testBit_and, Nat.testBit_or]
      have h7 : (0x80 : Nat) = 2 ^ 7 := by decide
      have h7f : ∀ j, (0x7f : Nat).testBit j = decide (j < 7) := by
        intro j
        have : (0x7f : Nat) = 2 ^ 7 - 1 := by decide
        rw [this, Nat.testBit_two_pow_sub_one]
      rw [h7, Nat.testBit_two_pow, h7f]
      by_cases e : 7 = i
      · subst e
        simp
      · simp [e]
    · rw [if_neg he, Nat.and_assoc, Nat.and_self]

/-- C12 at `RTC8564_CLKOUT_1HZ` with the output enabled and with it disabled. -/
theorem setClkoutFrequency_trace_witness :
    (setClkoutFrequency regBus 1 RTC8564_CLKOUT_1HZ (Device.mk (fun _ => 0) [])).log =
      [Event.write 0x0d [0x83]] ∧
    (setClkoutFrequency regBus 0 0x83 (Device.mk (fun _ => 0) [])).log =
      [Event.write 0x0d [0x03]] :=
  ⟨(setClkoutFrequency_trace regBus 1 RTC8564_CLKOUT_1HZ (Device.mk (fun _ => 0) [])
      (by decide)).1,
    (setClkoutFrequency_trace regBus 0 0x83 (Device.mk (fun _ => 0) []) (by decide)).1⟩

/-! ## Trace lemmas -/

/-- A log that grew by `es` issued exactly `es`. -/
theorem issued_eq {σ : Type} (d d' : Device σ) (es : List Event)
    (h : d'.log = d.log ++ es) : issued d d' = es := by
  unfold issued
  rw [h, List.drop_left]

/-- The events of `getDateTime`. -/
theorem getDateTime_log {σ : Type} (W : Wire σ) (dt : DateTime) (d : Device σ) :
    (getDateTime W dt d).2.log = d.log ++ [Event.read 0x02 7] := by
  rfl

/-- The events of `getAlarm`. -/
theorem getAlarm_log {σ : Type} (W : Wire σ) (d : Device σ) :
    (getAlarm W d).2.log = d.log ++ [Event.read 0x09 4] := by
  rfl

/-- The events of `getAlarmFlag` and `getTimerFlag`. -/
theorem getFlag_log {σ : Type} (W : Wire σ) (d : Device σ) :
    (getAlarmFlag W d).2.log = d.log ++ [Event.read 0x01 1] ∧
    (getTimerFlag W d).2.log = d.log ++ [Event.read 0x01 1] :=
  ⟨rfl, rfl⟩

/-- The events of `clearAlarmFlag` and `clearTimerFlag`, in terms of the byte read. -/
theorem clearFlag_log {σ : Type} (W : Wire σ) (d : Device σ) :
    (clearAlarmFlag W d).log =
      d.log ++ [Event.read 0x01 1,
        Event.write 0x01 [andNot8 ((getRegisters W RTC8564_CONTROL2 1 d).1.getD 0 0) 0x08]] ∧
    (clearTimerFlag W d).log =
      d.log ++ [Event.read 0x01 1,
        Event.write 0x01 [andNot8 ((getRegisters W RTC8564_CONTROL2 1 d).1.getD 0 0) 0x04]] := by
  constructor
  · simp only [clearAlarmFlag, setRegisters]
    simp [getRegisters, RTC8564_CONTROL2, RTC8564_AF_BIT]
  · simp only [clearTimerFlag, setRegisters]
    simp [getRegisters, RTC8564_CONTROL2, RTC8564_TF_BIT]

/-- The events of the reset sequence of `initialise`, `c` being the CONTROL2 byte that
`setAlarm` reads. -/
theorem initialise_vl_set_log {σ : Type} (W : Wire σ) (dt : DateTime) (d : Device σ)
    (hvl : (getRegisters W RTC8564_SECONDS 1 d).1.getD 0 0 &&& 0x80 ≠ 0) :
    ∃ c : Nat,
      (initialise W dt d).log =
        d.log ++ [Event.read 0x02 1, Event.delay 1000,
          Event.write 0x00 [0x20, 0x00],
          Event.write 0x00 [0x20],
          Event.write 0x02 (dt.encode (List.replicate 7 0)),
          Event.write 0x00 [0x00],
          Event.read 0x01 1,
          Event.write 0x01 [andNot8 c 0x02],
          Event.write 0x09 [0x80, 0x80, 0x80, 0x80],
          Event.write 0x01 [andNot8 c 0x02],
          Event.write 0x0d [0x00],
          Event.write 0x0e [0x00]] := by
  refine ⟨(getRegisters W RTC8564_CONTROL2 1
    (setDateTime W dt
      (setRegisters W RTC8564_CONTROL1 2 [RTC8564_STOP_BIT, 0x00]
        (delay 1000 (getRegisters W RTC8564_SECONDS 1 d).2)))).1.getD 0 0, ?_⟩
  rw [initialise_of_vl_set W dt d hvl, setTimer_off, setClkoutFrequency_log, setAlarm_log,
    setDateTime_log]
  simp [setRegisters, delay, getRegisters, RTC8564_AE_NONE, RTC8564_CONTROL1,
    RTC8564_SECONDS, RTC8564_STOP_BIT, RTC8564_CLKOUT_32768HZ, andNot8]

/-- The events of `setTimer`, whatever `enableFlag` is: either the single write, or the
enabled sequence for some CONTROL2 byte `c`. -/
theorem setTimer_log_cases {σ : Type} (W : Wire σ)
    (enableFlag repeatMode clockMode counter ie : Nat) (d : Device σ) :
    (setTimer W enableFlag repeatMode clockMode counter ie d).log =
        d.log ++ [Event.write 0x0e [0x00]] ∨
    ∃ c v w : Nat,
      (setTimer W enableFlag repeatMode clockMode counter ie d).log =
        d.log ++ [Event.write 0x0e [0x00], Event.read 0x01 1, Event.write 0x01 [c],
          Event.write 0x01 [v], Event.write 0x0f [counter], Event.write 0x0e [w]] := by
  by_cases hen : enableFlag ≠ 0
  · right
    obtain ⟨hc, _⟩ := getRegisters_one W RTC8564_CONTROL2
      (setRegisters W RTC8564_TIMER_CONTROL 1 [0x00] d)
    exact ⟨_, _, _, setTimer_on W enableFlag repeatMode clockMode counter ie d _ hen hc⟩
  · left
    have h0 : enableFlag = 0 := not_not.mp hen
    subst h0
    rw [setTimer_off]

/-! ## Claims on the stop bit -/

/-- C13, as stated, fails: with CONTROL1 = 0x08 on the register-file bus, `setDateTime`
leaves CONTROL1 = 0x00, not 0x08 (0x08 with bit 0x20 cleared); already its first write,
0x20, differs from 0x08 in bit 3. -/
theorem setDateTime_control1_counterexample :
    (setDateTime regBus (DateTime.mk 0 0 0 1 1 0 6) (Device.mk (fun _ => 0x08) [])).bus
        RTC8564_CONTROL1 ≠ andNot8 0x08 RTC8564_STOP_BIT ∧
    (0x20 : Nat).testBit 3 ≠ (0x08 : Nat).testBit 3 := by
  decide

/-- C13, amended: `setDateTime` never reads CONTROL1. On the register-file bus, for every
initial register file and every DateTime `t`, the bytes it writes to CONTROL1 are 0x20
and then 0x00, whatever CONTROL1 held: every bit other than the stop bit is written as 0,
and CONTROL1 ends as 0x00, which is the initial byte with bit 0x20 cleared only when that
byte had no other bit set. -/
theorem setDateTime_control1 (t : DateTime) (regs : Nat → Nat) (log : List Event) :
    issued (Device.mk regs log) (setDateTime regBus t (Device.mk regs log)) =
      [Event.write RTC8564_CONTROL1 [0x20],
        Event.write RTC8564_SECONDS (t.encode (List.replicate 7 0)),
        Event.write RTC8564_CONTROL1 [0x00]] ∧
    reads (issued (Device.mk regs log) (setDateTime regBus t (Device.mk regs log))) = [] ∧
    (∀ i, i ≠ 5 → (0x20 : Nat).testBit i = false ∧ (0x00 : Nat).testBit i = false) ∧
    (setDateTime regBus t (Device.mk regs log)).bus RTC8564_CONTROL1 = 0x00 ∧
    ((setDateTime regBus t (Device.mk regs log)).bus RTC8564_CONTROL1 =
        andNot8 (regs RTC8564_CONTROL1) RTC8564_STOP_BIT ↔
      andNot8 (regs RTC8564_CONTROL1) RTC8564_STOP_BIT = 0) := by
  have hi := issued_eq (Device.mk regs log) _ _ (setDateTime_log regBus t (Device.mk regs log))
  have hb : (setDateTime regBus t (Device.mk regs log)).bus RTC8564_CONTROL1 = 0x00 := by
    rw [setDateTime_bus]
    rfl
  refine ⟨hi, ?_, ?_, hb, ?_⟩
  · rw [hi]
    rfl
  · intro i h5
    have h20 : (0x20 : Nat) = 2 ^ 5 := by decide
    rw [h20, Nat.testBit_two_pow, Nat.zero_testBit]
    have : ¬ (5 = i) := fun e => h5 e.symm
    simp [this]
  · rw [hb]
    exact ⟨fun h => h.symm, fun h => h.symm⟩

/-- The scan does reject unguarded traces: a calendar write with no CONTROL1 write before
it, and one issued after the stop bit was cleared. -/
theorem stopGuarded_rejects :
    stopGuarded none [Event.write 0x02 [0, 0, 0, 1, 0, 1, 0]] = false ∧
    stopGuarded none
      [Event.write 0x00 [0x20], Event.write 0x00 [0x00], Event.write 0x08 [0x24]] = false := by
  decide

/-- C14: for every transport, every device state and every argument, the trace of each
public operation keeps the calendar registers behind the stop bit: scanning the trace in
order, each write that touches a register in 0x02..0x08 finds bit 0x20 set in the byte
most recently written to CONTROL1 within that trace. `setDateTime` and the power-loss
branch of `initialise` issue one calendar write, the seven encoded bytes at 0x02; the other
branch of `initialise` and every other operation issue none. -/
theorem calendar_writes_guarded {σ : Type} (W : Wire σ) (d : Device σ) (dt : DateTime)
    (at_ : AlarmTime) (enableFlags interruptEnable enableFlag repeatMode clockMode counter
      frequency : Nat) :
    (stopGuarded none (issued d (initialise W dt d)) = true ∧
      stopGuarded none (issued d (setDateTime W dt d)) = true ∧
      stopGuarded none (issued d (getDateTime W dt d).2) = true ∧
      stopGuarded none (issued d (setAlarm W enableFlags at_ interruptEnable d)) = true ∧
      stopGuarded none (issued d (getAlarm W d).2) = true ∧
      stopGuarded none (issued d (getAlarmFlag W d).2) = true ∧
      stopGuarded none (issued d (clearAlarmFlag W d)) = true ∧
      stopGuarded none
        (issued d (setTimer W enableFlag repeatMode clockMode counter interruptEnable d)) =
          true ∧
      stopGuarded none (issued d (getTimerFlag W d).2) = true ∧
      stopGuarded none (issued d (clearTimerFlag W d)) = true ∧
      stopGuarded none (issued d (setClkoutFrequency W enableFlag frequency d)) = true) ∧
    (calendarWrites (issued d (setDateTime W dt d)) =
        [(0x02, dt.encode (List.replicate 7 0))] ∧
      calendarWrites (issued d (initialise W dt d)) =
        (if (getRegisters W RTC8564_SECONDS 1 d).1.getD 0 0 &&& 0x80 ≠ 0 then
          [(0x02, dt.encode (List.replicate 7 0))] else [])) ∧
    (calendarWrites (issued d (getDateTime W dt d).2) = [] ∧
      calendarWrites (issued d (setAlarm W enableFlags at_ interruptEnable d)) = [] ∧
      calendarWrites (issued d (getAlarm W d).2) = [] ∧
      calendarWrites (issued d (getAlarmFlag W d).2) = [] ∧
      calendarWrites (issued d (clearAlarmFlag W d)) = [] ∧
      calendarWrites
        (issued d (setTimer W enableFlag repeatMode clockMode counter interruptEnable d)) =
          [] ∧
      calendarWrites (issued d (getTimerFlag W d).2) = [] ∧
      calendarWrites (issued d (clearTimerFlag W d)) = [] ∧
      calendarWrites (issued d (setClkoutFrequency W enableFlag frequency d)) = []) := by
  have hlen : (dt.encode (List.replicate 7 0)).length = 7 := by
    rw [encode_eq dt _ (by decide)]
    rfl
  obtain ⟨b0, b1, b2, b3, b4, b5, b6, henc⟩ := length_seven hlen
  have hsd := issued_eq d _ _ (setDateTime_log W dt d)
  have hgd := issued_eq d _ _ (getDateTime_log W dt d)
  have hsa := issued_eq d _ _ (setAlarm_log W enableFlags at_ interruptEnable d)
  have hga := issued_eq d _ _ (getAlarm_log W d)
  have hgaf := issued_eq d _ _ (getFlag_log W d).1
  have hgtf := issued_eq d _ _ (getFlag_log W d).2
  have hcaf := issued_eq d _ _ (clearFlag_log W d).1
  have hctf := issued_eq d _ _ (clearFlag_log W d).2
  have hclk := issued_eq d _ _ (setClkoutFrequency_log W enableFlag frequency d)
  have hsdg : stopGuarded none (issued d (setDateTime W dt d)) = true ∧
      calendarWrites (issued d (setDateTime W dt d)) =
        [(0x02, dt.encode (List.replicate 7 0))] := by
    rw [hsd, henc]
    exact ⟨rfl, rfl⟩
  have hst : stopGuarded none
        (issued d (setTimer W enableFlag repeatMode clockMode counter interruptEnable d)) =
          true ∧
      calendarWrites
        (issued d (setTimer W enableFlag repeatMode clockMode counter interruptEnable d)) =
          [] := by
    rcases setTimer_log_cases W enableFlag repeatMode clockMode counter interruptEnable d with
      h | ⟨c, v, w, h⟩
    · rw [issued_eq d _ _ h]
      exact ⟨rfl, rfl⟩
    · rw [issued_eq d _ _ h]
      exact ⟨rfl, rfl⟩
  have hin : stopGuarded none (issued d (initialise W dt d)) = true ∧
      calendarWrites (issued d (initialise W dt d)) =
        (if (getRegisters W RTC8564_SECONDS 1 d).1.getD 0 0 &&& 0x80 ≠ 0 then
          [(0x02, dt.encode (List.replicate 7 0))] else []) := by
    by_cases hvl : (getRegisters W RTC8564_SECONDS 1 d).1.getD 0 0 &&& 0x80 ≠ 0
    · obtain ⟨c, h⟩ := initialise_vl_set_log W dt d hvl
      rw [issued_eq d _ _ h, if_pos hvl, henc]
      exact ⟨rfl, rfl⟩
    · have h0 : (getRegisters W RTC8564_SECONDS 1 d).1.getD 0 0 &&& 0x80 = 0 := not_not.mp hvl
      have h : (initialise W dt d).log = d.log ++ [Event.read 0x02 1] := by
        rw [initialise_of_vl_clear W dt d h0]
        rfl
      rw [issued_eq d _ _ h, if_neg hvl]
      exact ⟨rfl, rfl⟩
  refine ⟨⟨hin.1, hsdg.1, ?_, ?_, ?_, ?_, ?_, hst.1, ?_, ?_, ?_⟩, ⟨hsdg.2, hin.2⟩,
    ⟨?_, ?_, ?_, ?_, ?_, hst.2, ?_, ?_, ?_⟩⟩
  · rw [hgd]; rfl
  · rw [hsa]; rfl
  · rw [hga]; rfl
  · rw [hgaf]; rfl
  · rw [hcaf]; rfl
  · rw [hgtf]; rfl
  · rw [hctf]; rfl
  · rw [hclk]; rfl
  · rw [hgd]; rfl
  · rw [hsa]; rfl
  · rw [hga]; rfl
  · rw [hgaf]; rfl
  · rw [hcaf]; rfl
  · rw [hgtf]; rfl
  · rw [hctf]; rfl
  · rw [hclk]; rfl

/-! ## Further codec lemmas -/

/-- Arithmetic form of `fromBCD`: the high nibble counts tens, the low nibble units. -/
theorem fromBCD_eq (x : Nat) : fromBCD x = x / 16 * 10 + x % 16 := by
  unfold fromBCD
  have h1 : x >>> 4 = x / 16 := by
    rw [Nat.shiftRight_eq_div_pow]
  have h2 : x &&& 0x0f = x % 16 := Nat.and_pow_two_sub_one_eq_mod x 4
  rw [h1, h2]

/-- A masked byte decodes to a `uint8_t` without truncation. -/
theorem fromBCD_mask (x m : Nat) (hm : m < 256) :
    fromBCD (x &&& m) % 256 = fromBCD (x &&& m) := by
  have hle : x &&& m ≤ m := Nat.and_le_right
  apply Nat.mod_eq_of_lt
  rw [fromBCD_eq]
  omega

/-- What `decode` computes when the voltage-low bit is clear. -/
theorem decode_ok (t : DateTime) (data : List Nat) (hvl : data.getD 0 0 &&& 0x80 = 0) :
    t.decode data =
      (0,
        { second := fromBCD (data.getD 0 0 &&& 0x7f) % 256
          minute := fromBCD (data.getD 1 0 &&& 0x7f) % 256
          hour := fromBCD (data.getD 2 0 &&& 0x3f) % 256
          day := fromBCD (data.getD 3 0 &&& 0x3f) % 256
          month := fromBCD (data.getD 5 0 &&& 0x1f) % 256
          year :=
            if data.getD 5 0 &&& 0x80 ≠ 0 then (fromBCD (data.getD 6 0) % 256 + 100) % 256
            else fromBCD (data.getD 6 0) % 256
          weekday := fromBCD (data.getD 4 0 &&& 0x07) % 256 }) := by
  have h : ¬ (data.getD 0 0 &&& RTC8564_CAL_VL ≠ 0) := fun h => h hvl
  unfold DateTime.decode
  rw [if_neg h]
  by_cases hc : data.getD 5 0 &&& RTC8564_CAL_CENTURY ≠ 0
  · have hc2 : data.getD 5 0 &&& 0x80 ≠ 0 := hc
    simp only [if_pos hc, if_pos hc2]
  · have hc2 : ¬ (data.getD 5 0 &&& 0x80 ≠ 0) := hc
    simp only [if_neg hc, if_neg hc2]

/-! ## Claims on the field layout -/

/-- C15: for every image whose byte 0 has bit 0x80 clear and whose byte 6 has both
nibbles at most 9, `decode` returns 0 and yields second = fromBCD(b0 & 0x7f), minute =
fromBCD(b1 & 0x7f), hour = fromBCD(b2 & 0x3f), day = fromBCD(b3 & 0x3f), weekday =
fromBCD(b4 & 0x07), month = fromBCD(b5 & 0x1f) and year = fromBCD(b6), plus 100 when bit
0x80 of b5 is set, with no truncation to eight bits; the year is at most 199. The result
is a function of the masked bytes alone. -/
theorem decode_fields (t : DateTime) (data : List Nat)
    (hvl : data.getD 0 0 &&& 0x80 = 0)
    (hhi : data.getD 6 0 >>> 4 ≤ 9) (hlo : data.getD 6 0 &&& 0x0f ≤ 9) :
    t.decode data =
      (0,
        { second := fromBCD (data.getD 0 0 &&& 0x7f)
          minute := fromBCD (data.getD 1 0 &&& 0x7f)
          hour := fromBCD (data.getD 2 0 &&& 0x3f)
          day := fromBCD (data.getD 3 0 &&& 0x3f)
          month := fromBCD (data.getD 5 0 &&& 0x1f)
          year :=
            if data.getD 5 0 &&& 0x80 ≠ 0 then fromBCD (data.getD 6 0) + 100
            else fromBCD (data.getD 6 0)
          weekday := fromBCD (data.getD 4 0 &&& 0x07) }) ∧
    (t.decode data).2.year ≤ 199 ∧
    (∀ x, fromBCD x = (x >>> 4) * 10 + (x &&& 0x0f)) := by
  have hy : fromBCD (data.getD 6 0) ≤ 99 := by
    unfold fromBCD
    omega
  have hy1 : fromBCD (data.getD 6 0) % 256 = fromBCD (data.getD 6 0) :=
    Nat.mod_eq_of_lt (by omega)
  have hy2 : (fromBCD (data.getD 6 0) + 100) % 256 = fromBCD (data.getD 6 0) + 100 :=
    Nat.mod_eq_of_lt (by omega)
  have hdec := decode_ok t data hvl
  rw [fromBCD_mask _ 0x7f (by decide), fromBCD_mask _ 0x7f (by decide),
    fromBCD_mask _ 0x3f (by decide), fromBCD_mask _ 0x3f (by decide),
    fromBCD_mask _ 0x1f (by decide), fromBCD_mask _ 0x07 (by decide), hy1, hy2] at hdec
  refine ⟨hdec, ?_, fun _ => rfl⟩
  rw [hdec]
  show (if data.getD 5 0 &&& 0x80 ≠ 0 then fromBCD (data.getD 6 0) + 100
    else fromBCD (data.getD 6 0)) ≤ 199
  split <;> omega

/-- C15 at the image 0x59 0xd9 0x63 0xf1 0xfe 0xf2 0x99: the flag bits outside the masks
are all set, and the image decodes to 23:59:59 on day 31 of month 12, year 199,
weekday 6. -/
theorem decode_fields_witness :
    (DateTime.mk 0 0 0 0 0 0 0).decode [0x59, 0xd9, 0x63, 0xf1, 0xfe, 0xf2, 0x99] =
      (0, DateTime.mk 59 59 23 31 12 199 6) :=
  (decode_fields (DateTime.mk 0 0 0 0 0 0 0) [0x59, 0xd9, 0x63, 0xf1, 0xfe, 0xf2, 0x99]
    (by decide) (by decide) (by decide)).1

/-- The bytes `DateTime::encode` leaves in a buffer of seven cells or more: the first
seven are rewritten, the rest is kept. -/
theorem encode_cons (t : DateTime) (a b c d e f g : Nat) (rest : List Nat) :
    t.encode (a :: b :: c :: d :: e :: f :: g :: rest) =
      toBCD t.second % 256 :: toBCD t.minute % 256 :: toBCD t.hour % 256 ::
        toBCD t.day % 256 :: toBCD t.weekday % 256 ::
        (if t.year > 100 then (toBCD t.month % 256 ||| 0x80) % 256 else toBCD t.month % 256) ::
        (if t.year > 100 then toBCD (t.year - 100) % 256 else toBCD t.year % 256) :: rest := by
  unfold DateTime.encode
  by_cases hy : t.year > 100
  · simp [hy, List.set, List.getD, RTC8564_CAL_CENTURY]
  · simp [hy, List.set]

/-- A buffer of seven cells or more starts with seven cells. -/
theorem length_ge_seven {data : List Nat} (h : 7 ≤ data.length) :
    ∃ a b c d e f g rest, data = a :: b :: c :: d :: e :: f :: g :: rest := by
  match data, h with
  | a :: b :: c :: d :: e :: f :: g :: rest, _ => exact ⟨a, b, c, d, e, f, g, rest, rfl⟩

/-- BCD bytes of values up to 99: both nibbles are decimal digits. -/
theorem toBCD_nibbles : ∀ x < 100,
    toBCD x >>> 4 = x / 10 ∧ toBCD x &&& 0x0f = x % 10 ∧ toBCD x >>> 4 ≤ 9 ∧
      toBCD x &&& 0x0f ≤ 9 := by
  decide

/-- The month byte, with and without the century bit, under the 7-bit mask. -/
theorem month_low7 : ∀ x < 100,
    toBCD x % 256 &&& 0x7f = toBCD x &&& 0x7f ∧
    (toBCD x % 256 ||| 0x80) % 256 &&& 0x7f = toBCD x &&& 0x7f ∧
    (x ≤ 79 → toBCD x &&& 0x7f = toBCD x) := by
  decide

/-- C16, as stated, fails: month 80 is within the claim's range, its BCD byte is 0x80,
and the low seven bits of byte 5 are 0x00, not 0x80. -/
theorem encode_month_counterexample :
    ((DateTime.mk 0 0 0 1 80 0 0).encode [0, 0, 0, 0, 0, 0, 0]).getD 5 0 &&& 0x7f ≠
      toBCD 80 := by
  decide

/-- C16, amended: for every DateTime whose second, minute, hour, day, weekday and month
are at most 99, `encode` writes byte 0 = BCD(second), byte 1 = BCD(minute), byte 2 =
BCD(hour), byte 3 = BCD(day) and byte 4 = BCD(weekday); the low seven bits of byte 5 are
the low seven bits of BCD(month), and are BCD(month) itself when month is at most 79.
Every BCD byte has both nibbles at most 9, and in a buffer of seven cells or more
`encode` writes cells 0..6 only. -/
theorem encode_layout (t : DateTime) (data : List Nat) (hlen : 7 ≤ data.length)
    (hs : t.second ≤ 99) (hm : t.minute ≤ 99) (hh : t.hour ≤ 99) (hd : t.day ≤ 99)
    (hw : t.weekday ≤ 99) (hmo : t.month ≤ 99) :
    (t.encode data).getD 0 0 = toBCD t.second ∧
    (t.encode data).getD 1 0 = toBCD t.minute ∧
    (t.encode data).getD 2 0 = toBCD t.hour ∧
    (t.encode data).getD 3 0 = toBCD t.day ∧
    (t.encode data).getD 4 0 = toBCD t.weekday ∧
    (t.encode data).getD 5 0 &&& 0x7f = toBCD t.month &&& 0x7f ∧
    (t.month ≤ 79 → (t.encode data).getD 5 0 &&& 0x7f = toBCD t.month) ∧
    (∀ x, x ≤ 99 → toBCD x = ((x / 10) <<< 4) ||| (x % 10) ∧ toBCD x >>> 4 ≤ 9 ∧
      toBCD x &&& 0x0f ≤ 9) ∧
    (t.encode data).length = data.length ∧
    (t.encode data).drop 7 = data.drop 7 := by
  obtain ⟨a, b, c, d, e, f, g, rest, rfl⟩ := length_ge_seven hlen
  obtain ⟨l1, l2, l3⟩ := month_low7 t.month (by omega)
  have h5 : (if t.year > 100 then (toBCD t.month % 256 ||| 0x80) % 256
      else toBCD t.month % 256) &&& 0x7f = toBCD t.month &&& 0x7f := by
    split
    · exact l2
    · exact l1
  rw [encode_cons]
  refine ⟨?_, ?_, ?_, ?_, ?_, h5, ?_, ?_, rfl, rfl⟩
  · exact toBCD_lt _ (by omega)
  · exact toBCD_lt _ (by omega)
  · exact toBCD_lt _ (by omega)
  · exact toBCD_lt _ (by omega)
  · exact toBCD_lt _ (by omega)
  · intro h79
    exact h5.trans (l3 h79)
  · intro x hx
    obtain ⟨_, _, n1, n2⟩ := toBCD_nibbles x (by omega)
    exact ⟨rfl, n1, n2⟩

/-- C16, amended, at 23:59:58 on day 31 of month 12, weekday 6, year 105, in a buffer of
eight cells: the eighth cell is kept. -/
theorem encode_layout_witness :
    ((DateTime.mk 58 59 23 31 12 105 6).encode [1, 2, 3, 4, 5, 6, 7, 8]).getD 0 0 = toBCD 58 ∧
    ((DateTime.mk 58 59 23 31 12 105 6).encode [1, 2, 3, 4, 5, 6, 7, 8]).getD 5 0 &&& 0x7f =
      toBCD 12 ∧
    ((DateTime.mk 58 59 23 31 12 105 6).encode [1, 2, 3, 4, 5, 6, 7, 8]).drop 7 = [8] :=
  ⟨(encode_layout (DateTime.mk 58 59 23 31 12 105 6) [1, 2, 3, 4, 5, 6, 7, 8] (by decide)
      (by decide) (by decide) (by decide) (by decide) (by decide) (by decide)).1,
    (encode_layout (DateTime.mk 58 59 23 31 12 105 6) [1, 2, 3, 4, 5, 6, 7, 8] (by decide)
      (by decide) (by decide) (by decide) (by decide) (by decide) (by decide)).2.2.2.2.2.2.1
      (by decide),
    (encode_layout (DateTime.mk 58 59 23 31 12 105 6) [1, 2, 3, 4, 5, 6, 7, 8] (by decide)
      (by decide) (by decide) (by decide) (by decide) (by decide) (by decide)).2.2.2.2.2.2.2.2.2⟩

/-! ## Claims on the alarm and flag accessors -/

set_option maxRecDepth 20000 in
/-- The four alarm bits of a `uint8_t` mask sum to its low nibble. -/
theorem mask_bits_low : ∀ mask < 256,
    (if mask &&& 1 ≠ 0 then 1 else 0) + (if mask &&& 2 ≠ 0 then 2 else 0) +
      (if mask &&& 4 ≠ 0 then 4 else 0) + (if mask &&& 8 ≠ 0 then 8 else 0) =
        mask &&& 0x0f := by
  decide

/-- C17: on the register-file bus, for every 8-bit `enableFlags` and every AlarmTime
within the chip's ranges, `getAlarm` run after `setAlarm` returns the mask
`enableFlags & 0x0f`, the stored value of every field whose bit is set in `enableFlags`,
and 0 for every other field. -/
theorem getAlarm_after_setAlarm (enableFlags : Nat) (at_ : AlarmTime) (ie : Nat)
    (d : Device (Nat → Nat)) (hflags : enableFlags < 256)
    (hm : at_.minute ≤ 59) (hh : at_.hour ≤ 23) (hd : 1 ≤ at_.day ∧ at_.day ≤ 31)
    (hw : at_.weekday ≤ 6) :
    (getAlarm regBus (setAlarm regBus enableFlags at_ ie d)).1 =
      (enableFlags &&& 0x0f,
        { minute := if enableFlags &&& RTC8564_AE_MINUTE ≠ 0 then at_.minute else 0
          hour := if enableFlags &&& RTC8564_AE_HOUR ≠ 0 then at_.hour else 0
          day := if enableFlags &&& RTC8564_AE_DAY ≠ 0 then at_.day else 0
          weekday := if enableFlags &&& RTC8564_AE_WEEKDAY ≠ 0 then at_.weekday else 0 }) ∧
    ((getAlarm regBus (setAlarm regBus enableFlags at_ ie d)).1.1 &&& RTC8564_AE_MINUTE ≠ 0 ↔
      enableFlags &&& RTC8564_AE_MINUTE ≠ 0) ∧
    ((getAlarm regBus (setAlarm regBus enableFlags at_ ie d)).1.1 &&& RTC8564_AE_HOUR ≠ 0 ↔
      enableFlags &&& RTC8564_AE_HOUR ≠ 0) ∧
    ((getAlarm regBus (setAlarm regBus enableFlags at_ ie d)).1.1 &&& RTC8564_AE_DAY ≠ 0 ↔
      enableFlags &&& RTC8564_AE_DAY ≠ 0) ∧
    ((getAlarm regBus (setAlarm regBus enableFlags at_ ie d)).1.1 &&& RTC8564_AE_WEEKDAY ≠ 0 ↔
      enableFlags &&& RTC8564_AE_WEEKDAY ≠ 0) := by
  obtain ⟨m1, m2⟩ := bcd7_roundtrip at_.minute (by omega)
  obtain ⟨h1, h2⟩ := bcd6_roundtrip at_.hour (by omega)
  obtain ⟨d1, d2⟩ := bcd6_roundtrip at_.day (by omega)
  obtain ⟨w1, w2⟩ := bcd3_roundtrip at_.weekday (by omega)
  have hres : (getAlarm regBus (setAlarm regBus enableFlags at_ ie d)).1 =
      (enableFlags &&& 0x0f,
        { minute := if enableFlags &&& RTC8564_AE_MINUTE ≠ 0 then at_.minute else 0
          hour := if enableFlags &&& RTC8564_AE_HOUR ≠ 0 then at_.hour else 0
          day := if enableFlags &&& RTC8564_AE_DAY ≠ 0 then at_.day else 0
          weekday := if enableFlags &&& RTC8564_AE_WEEKDAY ≠ 0 then at_.weekday else 0 }) := by
    rw [getAlarm_eq regBus _ _ _ _ _ (setAlarm_regBus_image enableFlags at_ ie d)]
    obtain ⟨a0, f0⟩ :=
      alarm_byte (enableFlags &&& RTC8564_AE_MINUTE ≠ 0) _ 0x7f _ 1 m1 m2 (by decide)
    obtain ⟨a1, f1⟩ :=
      alarm_byte (enableFlags &&& RTC8564_AE_HOUR ≠ 0) _ 0x3f _ 2 h1 h2 (by decide)
    obtain ⟨a2, f2⟩ :=
      alarm_byte (enableFlags &&& RTC8564_AE_DAY ≠ 0) _ 0x3f _ 4 d1 d2 (by decide)
    obtain ⟨a3, f3⟩ :=
      alarm_byte (enableFlags &&& RTC8564_AE_WEEKDAY ≠ 0) _ 0x07 _ 8 w1 w2 (by decide)
    rw [a0, a1, a2, a3, f0, f1, f2, f3]
    have hb := mask_bits_low enableFlags hflags
    simp only [RTC8564_AE_MINUTE, RTC8564_AE_HOUR, RTC8564_AE_DAY, RTC8564_AE_WEEKDAY]
    rw [hb]
  have hsub : ∀ k, k &&& 0x0f = k → (enableFlags &&& 0x0f) &&& k = enableFlags &&& k := by
    intro k hk
    rw [Nat.and_assoc, Nat.and_comm 0x0f k, hk]
  refine ⟨hres, ?_, ?_, ?_, ?_⟩ <;> rw [hres]
  · show (enableFlags &&& 0x0f) &&& 0x01 ≠ 0 ↔ enableFlags &&& 0x01 ≠ 0
    rw [hsub 0x01 (by decide)]
  · show (enableFlags &&& 0x0f) &&& 0x02 ≠ 0 ↔ enableFlags &&& 0x02 ≠ 0
    rw [hsub 0x02 (by decide)]
  · show (enableFlags &&& 0x0f) &&& 0x04 ≠ 0 ↔ enableFlags &&& 0x04 ≠ 0
    rw [hsub 0x04 (by decide)]
  · show (enableFlags &&& 0x0f) &&& 0x08 ≠ 0 ↔ enableFlags &&& 0x08 ≠ 0
    rw [hsub 0x08 (by decide)]

/-- C17 at `enableFlags` = 0xf6 (hour and day armed, with stray high bits) and the alarm
time 07:45 on day 21, weekday 3. -/
theorem getAlarm_after_setAlarm_witness :
    (getAlarm regBus
        (setAlarm regBus 0xf6 (AlarmTime.mk 45 7 21 3) 0 (Device.mk (fun _ => 0) []))).1 =
      (0x06, AlarmTime.mk 0 7 21 0) :=
  (getAlarm_after_setAlarm 0xf6 (AlarmTime.mk 45 7 21 3) 0 (Device.mk (fun _ => 0) [])
    (by decide) (by decide) (by decide) (by decide) (by decide)).1

/-- C18: for every CONTROL2 byte `c` returned by the read, `getAlarmFlag` returns 1 when
bit 0x08 of `c` is set and 0 otherwise, and `getTimerFlag` does the same for bit 0x04.
Each issues the one-byte read of CONTROL2 and nothing else: the bus sees that read only,
and on the register-file bus every register is left as it was. -/
theorem flag_getters {σ : Type} (W : Wire σ) (d : Device σ) (c : Nat)
    (hc : (getRegisters W RTC8564_CONTROL2 1 d).1 = [c]) :
    (getAlarmFlag W d).1 = (if c &&& 0x08 ≠ 0 then 1 else 0) ∧
    (getTimerFlag W d).1 = (if c &&& 0x04 ≠ 0 then 1 else 0) ∧
    (getAlarmFlag W d).2.log = d.log ++ [Event.read 0x01 1] ∧
    (getTimerFlag W d).2.log = d.log ++ [Event.read 0x01 1] ∧
    (getAlarmFlag W d).2.bus = (W.read d.bus 0x01 1).2 ∧
    (getTimerFlag W d).2.bus = (W.read d.bus 0x01 1).2 ∧
    (∀ (regs : Nat → Nat) (log : List Event),
      (getAlarmFlag regBus (Device.mk regs log)).2.bus = regs ∧
      (getTimerFlag regBus (Device.mk regs log)).2.bus = regs) := by
  refine ⟨?_, ?_, rfl, rfl, rfl, rfl, fun _ _ => ⟨rfl, rfl⟩⟩
  · simp only [getAlarmFlag, hc, List.getD_cons_zero, RTC8564_AF_BIT]
  · simp only [getTimerFlag, hc, List.getD_cons_zero, RTC8564_TF_BIT]

/-- C18 on the register-file bus with CONTROL2 = 0x08: the alarm flag reads 1, the timer
flag reads 0. -/
theorem flag_getters_witness :
    (getRegisters regBus RTC8564_CONTROL2 1 (Device.mk (fun _ => 0x08) [])).1 = [0x08] ∧
    (getAlarmFlag regBus (Device.mk (fun _ => 0x08) [])).1 = 1 ∧
    (getTimerFlag regBus (Device.mk (fun _ => 0x08) [])).1 = 0 :=
  ⟨by decide,
    (flag_getters regBus (Device.mk (fun _ => 0x08) []) 0x08 (by decide)).1,
    (flag_getters regBus (Device.mk (fun _ => 0x08) []) 0x08 (by decide)).2.1⟩

/-! ## Claims on voltage loss -/

/-- C19: when bit 0x80 of byte 0 is set, `decode` returns -1 and leaves the DateTime as
it was, all seven fields; `getDateTime` does the same with the DateTime passed to it when
the first byte it reads has that bit set. In either outcome `getDateTime` issues the
seven-byte read at SECONDS and no write. -/
theorem decode_failure_keeps_fields {σ : Type} (W : Wire σ) (t dt : DateTime)
    (data : List Nat) (d : Device σ) :
    (data.getD 0 0 &&& 0x80 ≠ 0 → t.decode data = (-1, t)) ∧
    ((getRegisters W RTC8564_SECONDS 7 d).1.getD 0 0 &&& 0x80 ≠ 0 →
      (getDateTime W dt d).1 = (-1, dt)) ∧
    (getDateTime W dt d).2.log = d.log ++ [Event.read 0x02 7] ∧
    writes (issued d (getDateTime W dt d).2) = [] := by
  have hdec : ∀ (u : DateTime) (b : List Nat), b.getD 0 0 &&& 0x80 ≠ 0 →
      u.decode b = (-1, u) := by
    intro u b h
    have h2 : b.getD 0 0 &&& RTC8564_CAL_VL ≠ 0 := h
    unfold DateTime.decode
    rw [if_pos h2]
  refine ⟨hdec t data, ?_, rfl, ?_⟩
  · intro h
    exact hdec dt _ h
  · rw [issued_eq d _ _ (getDateTime_log W dt d)]
    rfl

/-- C19 on the register-file bus with every register holding 0x80 (voltage-low set): the
DateTime 12:34:56 of day 21, month 7, year 24, weekday 3 comes back untouched with -1. -/
theorem decode_failure_keeps_fields_witness :
    (getRegisters regBus RTC8564_SECONDS 7 (Device.mk (fun _ => 0x80) [])).1.getD 0 0
        &&& 0x80 ≠ 0 ∧
    (DateTime.mk 56 34 12 21 7 24 3).decode [0x80, 0x12, 0x03, 0x04, 0x05, 0x06, 0x07] =
      (-1, DateTime.mk 56 34 12 21 7 24 3) ∧
    (getDateTime regBus (DateTime.mk 56 34 12 21 7 24 3) (Device.mk (fun _ => 0x80) [])).1 =
      (-1, DateTime.mk 56 34 12 21 7 24 3) :=
  ⟨by decide,
    (decode_failure_keeps_fields regBus (DateTime.mk 56 34 12 21 7 24 3)
      (DateTime.mk 56 34 12 21 7 24 3) [0x80, 0x12, 0x03, 0x04, 0x05, 0x06, 0x07]
      (Device.mk (fun _ => 0x80) [])).1 (by decide),
    (decode_failure_keeps_fields regBus (DateTime.mk 56 34 12 21 7 24 3)
      (DateTime.mk 56 34 12 21 7 24 3) [0x80, 0x12, 0x03, 0x04, 0x05, 0x06, 0x07]
      (Device.mk (fun _ => 0x80) [])).2.1 (by decide)⟩

/-! ## The register file after a reset -/

/-- One register of the register-file bus after a burst write. -/
theorem regBus_write_apply (regs : Nat → Nat) (address : Nat) (data : List Nat) (r : Nat) :
    regBus.write regs address data r =
      if address ≤ r ∧ r < address + data.length then data.getD (r - address) 0
      else regs r := by
  rfl

/-- The register file that the reset sequence of `initialise` leaves on the register-file
bus: nine burst writes over the initial registers. CONTROL2 reads back the 0x00 of the
first write, so `setAlarm` writes 0x00 to it twice. -/
theorem initialise_regBus_bus (dt : DateTime) (regs : Nat → Nat) (log : List Event)
    (hvl : regs 0x02 % 256 &&& 0x80 ≠ 0) :
    (initialise regBus dt (Device.mk regs log)).bus =
      regBus.write (regBus.write (regBus.write (regBus.write (regBus.write (regBus.write
        (regBus.write (regBus.write (regBus.write regs
          0x00 [0x20, 0x00]) 0x00 [0x20]) 0x02 (dt.encode (List.replicate 7 0))) 0x00 [0x00])
          0x01 [0x00]) 0x09 [0x80, 0x80, 0x80, 0x80]) 0x01 [0x00]) 0x0d [0x00])
          0x0e [0x00] := by
  have hvl2 : (getRegisters regBus RTC8564_SECONDS 1 (Device.mk regs log)).1.getD 0 0
      &&& 0x80 ≠ 0 := hvl
  have hc : (getRegisters regBus RTC8564_CONTROL2 1
      (setDateTime regBus dt
        (setRegisters regBus RTC8564_CONTROL1 2 [RTC8564_STOP_BIT, 0x00]
          (delay 1000 (getRegisters regBus RTC8564_SECONDS 1 (Device.mk regs log)).2)))).1
        = [0] := by
    rw [getRegisters_regBus, setDateTime_bus]
    simp [regBus_write_apply, setRegisters, delay, getRegisters, RTC8564_CONTROL2,
      RTC8564_CONTROL1, RTC8564_SECONDS, RTC8564_STOP_BIT, List.range, List.range.loop]
  rw [initialise_of_vl_set regBus dt (Device.mk regs log) hvl2, setTimer_off]
  simp only [setClkoutFrequency]
  rw [setRegisters_bus, setAlarm_bus, hc, getRegisters_regBus, setDateTime_bus]
  rfl

/-- C20: on the register-file bus, let `R` be the device after `initialise` ran its
power-loss branch. Then CONTROL1 = 0x00, CONTROL2 = 0x00, the registers 0x02..0x08 hold
the seven bytes of `encode dt`, the alarm registers 0x09..0x0c hold 0x80 each,
CLKOUT_FREQUENCY = 0x00 and TIMER_CONTROL = 0x00. Hence, when `dt.second` is in 0..59, a
second `initialise` (with any default time) reads the voltage-low bit clear and issues
that read and no write. -/
theorem initialise_register_file (dt : DateTime) (regs : Nat → Nat) (log : List Event)
    (R : Device (Nat → Nat)) (hR : R = initialise regBus dt (Device.mk regs log))
    (hvl : regs 0x02 % 256 &&& 0x80 ≠ 0) :
    R.bus RTC8564_CONTROL1 = 0x00 ∧
    R.bus RTC8564_CONTROL2 = 0x00 ∧
    (∀ i, i < 7 → R.bus (RTC8564_SECONDS + i) = (dt.encode (List.replicate 7 0)).getD i 0) ∧
    (∀ i, i < 4 → R.bus (RTC8564_MINUTE_ALARM + i) = 0x80) ∧
    R.bus RTC8564_CLKOUT_FREQUENCY = 0x00 ∧
    R.bus RTC8564_TIMER_CONTROL = 0x00 ∧
    (dt.second ≤ 59 → ∀ dt2 : DateTime,
      (getRegisters regBus RTC8564_SECONDS 1 R).1.getD 0 0 &&& 0x80 = 0 ∧
      issued R (initialise regBus dt2 R) = [Event.read 0x02 1] ∧
      (initialise regBus dt2 R).bus = R.bus) := by
  have hlen : (dt.encode (List.replicate 7 0)).length = 7 := by
    rw [encode_eq dt _ (by decide)]
    rfl
  have hbus := initialise_regBus_bus dt regs log hvl
  rw [← hR] at hbus
  have h0 : (dt.encode (List.replicate 7 0)).getD 0 0 = toBCD dt.second % 256 := by
    rw [encode_eq dt _ (by decide)]
    rfl
  obtain ⟨b0, b1, b2, b3, b4, b5, b6, henc⟩ := length_seven hlen
  rw [henc] at hbus h0
  have hsec : R.bus RTC8564_SECONDS = toBCD dt.second % 256 := by
    rw [hbus, ← h0]
    rfl
  refine ⟨by rw [hbus]; rfl, by rw [hbus]; rfl, ?_, ?_, by rw [hbus]; rfl, by rw [hbus]; rfl,
    ?_⟩
  · intro i hi
    rw [hbus, henc]
    interval_cases i <;> rfl
  · intro i hi
    rw [hbus]
    interval_cases i <;> rfl
  · intro hs dt2
    obtain ⟨s1, _⟩ := bcd7_roundtrip dt.second (by omega)
    have hread : (getRegisters regBus RTC8564_SECONDS 1 R).1.getD 0 0 =
        toBCD dt.second % 256 % 256 := by
      rw [getRegisters_regBus, ← hsec]
      rfl
    have hclear : (getRegisters regBus RTC8564_SECONDS 1 R).1.getD 0 0 &&& 0x80 = 0 := by
      rw [hread, Nat.mod_mod]
      exact s1
    have hrun := initialise_of_vl_clear regBus dt2 R hclear
    refine ⟨hclear, ?_, ?_⟩
    · apply issued_eq
      rw [hrun]
      rfl
    · rw [hrun]
      rfl

/-- C20 with every register holding 0x80 at the start and the default time 2000-01-01
00:00:00, weekday 6: the second `initialise` issues its read alone. -/
theorem initialise_register_file_witness :
    (fun _ => 0x80 : Nat → Nat) 0x02 % 256 &&& 0x80 ≠ 0 ∧
    (initialise regBus (DateTime.mk 0 0 0 1 1 0 6) (Device.mk (fun _ => 0x80) [])).bus
      RTC8564_CONTROL1 = 0x00 ∧
    issued (initialise regBus (DateTime.mk 0 0 0 1 1 0 6) (Device.mk (fun _ => 0x80) []))
      (initialise regBus (DateTime.mk 0 0 0 1 1 0 6)
        (initialise regBus (DateTime.mk 0 0 0 1 1 0 6) (Device.mk (fun _ => 0x80) []))) =
      [Event.read 0x02 1] :=
  ⟨by decide,
    (initialise_register_file (DateTime.mk 0 0 0 1 1 0 6) (fun _ => 0x80) [] _ rfl
      (by decide)).1,
    ((initialise_register_file (DateTime.mk 0 0 0 1 1 0 6) (fun _ => 0x80) [] _ rfl
      (by decide)).2.2.2.2.2.2 (by decide) (DateTime.mk 0 0 0 1 1 0 6)).2.1⟩

end RTC8564
